import Mathlib

/-!
Verification of the external-data-fetch gateway of `dashboard-obscura`.

The gateway consists of three Next.js route handlers (one per data format:
json, xml, rdf), each exported as `POST` from its route module.  This file
gives a shallow embedding of those handlers and proves the specification
claims about them.

The embedding models a JS value that originated from `JSON.parse` (so there
is no `undefined` member: an absent object field plays the role of
`undefined`, represented by `Option.none` on lookups), JS truthiness,
template-literal stringification, `JSON.stringify`, and base64 encoding of
UTF-8 bytes as performed by `Buffer.from(s).toString("base64")`.
-/

set_option autoImplicit false

mutual

/-- A JSON value, as produced by `await request.json()`.  Numbers are
restricted to integers: the handlers never do arithmetic on them, and no
claim involves fractional numbers (floating point is not modelled).  The
element and field containers are bespoke mutual inductives (isomorphic to
`List JsonValue` and `List (String × JsonValue)`) so that equality is
decidable and every recursion over them is structural. -/
inductive JsonValue where
  | null
  | bool (b : Bool)
  | num (n : Int)
  | str (s : String)
  | arr (xs : JsonList)
  | obj (fs : JsonFields)
  deriving DecidableEq

/-- The elements of a JSON array. -/
inductive JsonList where
  | nil
  | cons (v : JsonValue) (rest : JsonList)
  deriving DecidableEq

/-- The fields of a JSON object, in insertion order. -/
inductive JsonFields where
  | nil
  | cons (k : String) (v : JsonValue) (rest : JsonFields)
  deriving DecidableEq

end

/-- Build a `JsonFields` from a plain list of pairs. -/
def jfields : List (String × JsonValue) → JsonFields
  | [] => .nil
  | (k, v) :: rest => .cons k v (jfields rest)

/-- Build a `JsonList` from a plain list of values. -/
def jlist : List JsonValue → JsonList
  | [] => .nil
  | v :: rest => .cons v (jlist rest)

/-- JS truthiness of a defined value. -/
def truthy : JsonValue → Bool
  | .null => false
  | .bool b => b
  | .num n => n != 0
  | .str s => s != ""
  | .arr _ => true
  | .obj _ => true

/-- JS truthiness where `none` stands for `undefined`. -/
def truthyOpt : Option JsonValue → Bool
  | none => false
  | some v => truthy v

/-- Property lookup on the fields of a JSON object.  `JSON.parse` keeps the
last of duplicate keys, so lookup returns the last matching entry. -/
def lookupLast : JsonFields → String → Option JsonValue
  | .nil, _ => none
  | .cons k' v rest, k =>
    match lookupLast rest k with
    | some w => some w
    | none => if k' == k then some v else none

/-- Property access `v.k` (or `v?.k`): only objects carry these properties;
on `null` the handlers only ever use optional chaining, and primitives have
none of the property names the handlers read. -/
def getField (v : JsonValue) (k : String) : Option JsonValue :=
  match v with
  | .obj fs => lookupLast fs k
  | _ => none

/-- Property access through an optional value (`undefined` yields `undefined`). -/
def getFieldO (v : Option JsonValue) (k : String) : Option JsonValue :=
  match v with
  | some w => getField w k
  | none => none

mutual

/-- JS `ToString` as applied by template literals and property-key
conversion: `String(v)`. -/
def jsToString : JsonValue → String
  | .null => "null"
  | .bool true => "true"
  | .bool false => "false"
  | .num n => toString n
  | .str s => s
  | .arr xs => jsToStringArr xs
  | .obj _ => "[object Object]"

/-- `Array.prototype.toString`, i.e. `join(",")` where a `null` element
contributes the empty string. -/
def jsToStringArr : JsonList → String
  | .nil => ""
  | .cons x .nil => jsArrayElemStr x
  | .cons x rest => jsArrayElemStr x ++ "," ++ jsToStringArr rest

/-- One array element under `join`: `null` becomes the empty string. -/
def jsArrayElemStr : JsonValue → String
  | .null => ""
  | .bool true => "true"
  | .bool false => "false"
  | .num n => toString n
  | .str s => s
  | .arr xs => jsToStringArr xs
  | .obj _ => "[object Object]"

end

/-- `String(v)` where `none` is `undefined`. -/
def jsToStringOpt : Option JsonValue → String
  | none => "undefined"
  | some v => jsToString v

/-- Hexadecimal digit for `JSON.stringify` control-character escapes. -/
def hexDigit (n : Nat) : Char :=
  if n < 10 then Char.ofNat (48 + n) else Char.ofNat (87 + n)

/-- `JSON.stringify` escaping of one character inside a string literal. -/
def jsonEscapeChar (c : Char) : String :=
  if c = '"' then "\\\""
  else if c = '\\' then "\\\\"
  else if c = '\n' then "\\n"
  else if c = '\t' then "\\t"
  else if c = '\r' then "\\r"
  else if c = '\x08' then "\\b"
  else if c = '\x0c' then "\\f"
  else if c.toNat < 32 then
    "\\u00" ++ String.singleton (hexDigit (c.toNat / 16)) ++ String.singleton (hexDigit (c.toNat % 16))
  else String.singleton c

/-- `JSON.stringify` of a string value. -/
def jsonQuote (s : String) : String :=
  "\"" ++ String.join (s.data.map jsonEscapeChar) ++ "\""

mutual

/-- `JSON.stringify` on values obtained from `JSON.parse` (on such values it
never throws: there are no cycles, no `undefined`, no BigInt). -/
def jsonStringify : JsonValue → String
  | .null => "null"
  | .bool true => "true"
  | .bool false => "false"
  | .num n => toString n
  | .str s => jsonQuote s
  | .arr xs => "[" ++ jsonStringifyArr xs ++ "]"
  | .obj fs => "\x7b" ++ jsonStringifyObj fs ++ "\x7d"

/-- Comma-separated serialization of array elements. -/
def jsonStringifyArr : JsonList → String
  | .nil => ""
  | .cons x .nil => jsonStringify x
  | .cons x rest => jsonStringify x ++ "," ++ jsonStringifyArr rest

/-- Comma-separated serialization of object members. -/
def jsonStringifyObj : JsonFields → String
  | .nil => ""
  | .cons k v .nil => jsonQuote k ++ ":" ++ jsonStringify v
  | .cons k v rest => jsonQuote k ++ ":" ++ jsonStringify v ++ "," ++ jsonStringifyObj rest

end

/-- Whether the pattern occurs at the head of the haystack. -/
def leadsWith : List Char → List Char → Bool
  | [], _ => true
  | _ :: _, [] => false
  | p :: ps, c :: cs => p == c && leadsWith ps cs

/-- Whether the pattern occurs anywhere in the haystack. -/
def hasSub : List Char → List Char → Bool
  | [], pat => pat.isEmpty
  | c :: t, pat => leadsWith pat (c :: t) || hasSub t pat

/-- JS `String.prototype.includes(pat)`. -/
def strIncludes (s pat : String) : Bool :=
  hasSub s.data pat.data

/-- ASCII lower-casing of one character; `toLowerCase` agrees with this on
the ASCII content-type values the handlers inspect. -/
def charLower (c : Char) : Char :=
  if 65 ≤ c.toNat ∧ c.toNat ≤ 90 then Char.ofNat (c.toNat + 32) else c

/-- JS `String.prototype.toLowerCase` restricted to ASCII. -/
def strLower (s : String) : String :=
  String.mk (s.data.map charLower)

/-- UTF-8 encoding of one character (the byte sequence `Buffer.from`
produces). -/
def charUtf8 (c : Char) : List Nat :=
  let n := c.toNat
  if n < 0x80 then [n]
  else if n < 0x800 then [0xC0 + n / 64, 0x80 + n % 64]
  else if n < 0x10000 then [0xE0 + n / 4096, 0x80 + (n / 64) % 64, 0x80 + n % 64]
  else [0xF0 + n / 262144, 0x80 + (n / 4096) % 64, 0x80 + (n / 64) % 64, 0x80 + n % 64]

/-- UTF-8 bytes of a string. -/
def utf8Bytes (s : String) : List Nat :=
  s.data.flatMap charUtf8

/-- The base64 alphabet. -/
def base64Alphabet : List Char :=
  "ABCDEFGHIJKLMNOPQRSTUVWXYZabcdefghijklmnopqrstuvwxyz0123456789+/".data

/-- One base64 digit. -/
def base64Digit (n : Nat) : String :=
  String.singleton (base64Alphabet.getD n 'A')

/-- Standard base64 encoding of a byte list, with `=` padding. -/
def base64Encode : List Nat → String
  | [] => ""
  | [a] =>
    base64Digit (a / 4) ++ base64Digit (a % 4 * 16) ++ "=="
  | [a, b] =>
    base64Digit (a / 4) ++ base64Digit (a % 4 * 16 + b / 16) ++ base64Digit (b % 16 * 4) ++ "="
  | a :: b :: c :: rest =>
    base64Digit (a / 4) ++ base64Digit (a % 4 * 16 + b / 16) ++
      base64Digit (b % 16 * 4 + c / 64) ++ base64Digit (c % 64) ++ base64Encode rest

/-- `Buffer.from(s).toString("base64")`. -/
def bufferBase64 (s : String) : String :=
  base64Encode (utf8Bytes s)

/-!
## HTTP model

Types for the gateway's observable behavior: the inbound request, the
outbound `fetch` call, the upstream's answer, and the handler's response.
-/

/-- The `err` object `fast-xml-parser`'s `XMLValidator.validate` reports for
malformed input: a machine-readable code, a message, and a line number. -/
structure XmlErr where
  code : String
  msg : String
  line : Nat
  deriving DecidableEq

/-- Result of `XMLValidator.validate`: `true`, or an object carrying `err`. -/
inductive XmlValidation where
  | valid
  | invalid (err : XmlErr)
  deriving DecidableEq

/-- A JS `Error` raised during RDF parsing: its `message` and `stack`. -/
structure RdfError where
  msg : String
  stack : String
  deriving DecidableEq

/-- A parsed RDF quad record. -/
structure Quad where
  subject : String
  predicate : String
  object : String
  graph : String
  deriving DecidableEq

/-- One event on the quad stream produced by `rdfParser.parse`: a data
record, or an `error` event. -/
inductive QuadEvent where
  | quad (q : Quad)
  | err (e : RdfError)
  deriving DecidableEq

/-- The `details` member of an error response: a plain string (an exception
message or stack), the upstream-failure object, or the XML validator's
`err` object. -/
inductive Details where
  | msg (s : String)
  | upstream (originalStatus : Nat) (originalStatusText : String) (originalBody : Option String)
  | xmlErr (e : XmlErr)
  deriving DecidableEq

/-- The `data` member of a success response, per format. -/
inductive Payload where
  | json (v : JsonValue)
  | xml (v : JsonValue)
  | rdf (quads : List Quad)
  deriving DecidableEq

/-- The uniform response body: `{success:true, data}` or
`{success:false, error, details?}`. -/
inductive RespBody where
  | success (data : Payload)
  | failure (error : String) (details : Option Details)
  deriving DecidableEq

/-- An outward HTTP response: status code plus body. -/
structure Resp where
  status : Nat
  body : RespBody
  deriving DecidableEq

/-- The `errorResponse` helper shared by the three route modules. -/
def errorResponse (message : String) (status : Nat) (details : Option Details) : Resp :=
  ⟨status, .failure message details⟩

/-- An invocation of `fetch`: url (stringified), the `method`, `headers`
and `body` members of the options object. -/
structure FetchCall where
  url : String
  method : JsonValue
  headers : List (String × String)
  body : Option String
  deriving DecidableEq

/-- The options object handed to `rdfParser.parse`: `contentType` (resolved,
possibly `undefined`) and `baseIRI`. -/
structure RdfParseOpts where
  contentType : Option JsonValue
  baseIRI : Option JsonValue
  deriving DecidableEq

/-- An invocation of `new XMLParser(options).parse(text)`. -/
structure XmlParseCall where
  options : JsonValue
  text : String
  deriving DecidableEq

/-- Equality on `Except` results is decidable when it is on both sides. -/
instance instDecidableEqExcept {α β : Type} [DecidableEq α] [DecidableEq β] :
    DecidableEq (Except α β) := fun a b =>
  match a, b with
  | .ok x, .ok y =>
    if h : x = y then isTrue (by rw [h]) else isFalse (fun hc => h (by cases hc; rfl))
  | .error x, .error y =>
    if h : x = y then isTrue (by rw [h]) else isFalse (fun hc => h (by cases hc; rfl))
  | .ok _, .error _ => isFalse (fun hc => by cases hc)
  | .error _, .ok _ => isFalse (fun hc => by cases hc)

/-- The upstream's answer once `fetch` resolves: status, status text,
response headers, and the outcome of reading the body via `.text()` or
`.json()` (each `Except` arm models the corresponding reader throwing). -/
structure UpstreamResponse where
  status : Nat
  statusText : String
  headers : List (String × String)
  textResult : Except String String
  jsonResult : Except String JsonValue
  deriving DecidableEq

/-- The behavior of the one outbound `fetch`: the promise rejects (network
error) or resolves with a response. -/
inductive FetchOutcome where
  | networkError (msg : String)
  | response (r : UpstreamResponse)
  deriving DecidableEq

/-- An inbound request as the handlers see it: `await request.json()`
throws (malformed JSON body) or yields the parsed body.  The parsed body is
taken to be a JSON object — the shape `RequestEnvelope` prescribes.  (A JSON
`null` body would make the source's destructuring throw, and other
primitive bodies destructure as all-absent; both are outside the envelope
shape every claim quantifies over.) -/
inductive Inbound where
  | malformed (msg : String)
  | parsed (fields : JsonFields)
  deriving DecidableEq

/-- What happens after the outbound call: the response plus the parse-phase
observations. -/
structure PostFetch where
  resp : Resp
  rdfParseCalls : List RdfParseOpts
  xmlParseCalls : List XmlParseCall
  warnings : Nat
  deriving DecidableEq

/-- The full observable outcome of one handler run: the outward response,
the outbound `fetch` calls made (zero or one), the parser invocations, and
the number of `console.warn` emissions. -/
structure GatewayOutcome where
  resp : Resp
  fetchCalls : List FetchCall
  rdfParseCalls : List RdfParseOpts
  xmlParseCalls : List XmlParseCall
  warnings : Nat
  deriving DecidableEq

/-- A handler outcome reached before the outbound call. -/
def reject (r : Resp) : GatewayOutcome :=
  ⟨r, [], [], [], 0⟩

/-- A post-fetch outcome that only carries a response. -/
def pfResp (r : Resp) : PostFetch :=
  ⟨r, [], [], 0⟩

/-- Combine the recorded call with the post-fetch outcome. -/
def called (c : FetchCall) (p : PostFetch) : GatewayOutcome :=
  ⟨p.resp, [c], p.rdfParseCalls, p.xmlParseCalls, p.warnings⟩

/-!
## Pipeline steps shared by the three handlers

Each definition is a direct translation of the corresponding block of the
route modules; the json and xml modules carry longer validation messages
than the rdf module, selected here by the `short` flag.
-/

/-- Convert the fields of a JSON object to a plain list. -/
def fieldsToList : JsonFields → List (String × JsonValue)
  | .nil => []
  | .cons k v rest => (k, v) :: fieldsToList rest

/-- Convert a JSON array's elements to a plain list. -/
def jsonListToList : JsonList → List JsonValue
  | .nil => []
  | .cons v rest => v :: jsonListToList rest

/-- Property assignment `headers[k] = v` on a plain JS object: updates the
existing key in place or appends a new one. -/
def setKey : List (String × String) → String → String → List (String × String)
  | [], k, v => [(k, v)]
  | (k', v') :: rest, k, v =>
    if k' == k then (k, v) :: rest else (k', v') :: setKey rest k v

/-- The spread `{..."Content-Type": defaults, ...customHeaders}` source for
the `headers` request field.  Only string-valued entries are kept: the
`RequestEnvelope` data model types `outboundHeaders` as a string-to-string
mapping (a non-string value would also make the source's later
`Content-Type` probe throw, outside every claim's scope).  Spreading a
string or an array contributes its index-keyed entries, as in JS; other
primitives contribute nothing. -/
def extractHeaders : Option JsonValue → List (String × String)
  | some (.obj fs) =>
    (fieldsToList fs).filterMap (fun p =>
      match p.2 with
      | .str s => some (p.1, s)
      | _ => none)
  | some (.str s) =>
    (s.data.enum).map (fun p => (toString p.1, String.singleton p.2))
  | some (.arr xs) =>
    ((jsonListToList xs).enum).filterMap (fun p =>
      match p.2 with
      | .str s => some (toString p.1, s)
      | _ => none)
  | _ => []

/-- The assembled outbound headers: the default
`Content-Type: application/json` overridden by the caller's headers. -/
def buildHeaders (custom : List (String × String)) : List (String × String) :=
  custom.foldl (fun h p => setKey h p.1 p.2) [("Content-Type", "application/json")]

/-- Input validation: missing `apiUrl`, missing `dataType`, `dataType`
mismatched against this module's format, in that order. -/
def validateStep (fmt : String) (fields : JsonFields) : Option Resp :=
  if truthyOpt (lookupLast fields "apiUrl") = false then
    some (errorResponse "Missing 'apiUrl' in request body." 400 none)
  else if truthyOpt (lookupLast fields "dataType") = false then
    some (errorResponse "Missing 'dataType' in request body." 400 none)
  else if lookupLast fields "dataType" ≠ some (.str fmt) then
    some (errorResponse ("Invalid 'dataType'. Expected '" ++ fmt ++ "', got '"
      ++ jsToStringOpt (lookupLast fields "dataType") ++ "'.") 400 none)
  else none

/-- The authentication block: checks the `authentication` object and merges
the computed header into the outbound headers.  `short` selects the rdf
module's terser error messages.  (The source's surrounding `try` is dead for
JSON-derived inputs: header assignment, template literals and `Buffer.from`
on strings do not throw.) -/
def authHeadersStep (short : Bool) (authentication : Option JsonValue)
    (headers : List (String × String)) : Except Resp (List (String × String)) :=
  if truthyOpt authentication = false then .ok headers
  else
    let t := getFieldO authentication "type"
    let credentials := getFieldO authentication "credentials"
    if (truthyOpt t && truthyOpt credentials) = false then
      .error (errorResponse
        (if short then "Invalid 'authentication' object."
         else "Invalid 'authentication' object. Missing 'type' or 'credentials'.") 400 none)
    else if t = some (.str "apiKey") then
      if (truthyOpt (getFieldO credentials "key")
          && truthyOpt (getFieldO credentials "headerName")) = false then
        .error (errorResponse
          (if short then "Invalid 'apiKey' credentials."
           else "Invalid 'apiKey' credentials. Missing 'key' or 'headerName'.") 400 none)
      else
        let pfx := if truthyOpt (getFieldO credentials "prefix") then
          jsToStringOpt (getFieldO credentials "prefix") else ""
        .ok (setKey headers (jsToStringOpt (getFieldO credentials "headerName"))
          (pfx ++ jsToStringOpt (getFieldO credentials "key")))
    else if t = some (.str "bearerToken") then
      if truthyOpt (getFieldO credentials "token") = false then
        .error (errorResponse
          (if short then "Invalid 'bearerToken' credentials."
           else "Invalid 'bearerToken' credentials. Missing 'token'.") 400 none)
      else
        .ok (setKey headers "Authorization"
          ("Bearer " ++ jsToStringOpt (getFieldO credentials "token")))
    else if t = some (.str "basicAuth") then
      if (truthyOpt (getFieldO credentials "username")
          && (getFieldO credentials "password").isSome) = false then
        .error (errorResponse
          (if short then "Invalid 'basicAuth' credentials."
           else "Invalid 'basicAuth' credentials. Missing 'username' or 'password'.") 400 none)
      else
        .ok (setKey headers "Authorization"
          ("Basic " ++ bufferBase64 (jsToStringOpt (getFieldO credentials "username")
            ++ ":" ++ jsToStringOpt (getFieldO credentials "password"))))
    else
      .error (errorResponse ("Unsupported authentication type: '" ++ jsToStringOpt t ++ "'.") 400 none)

/-- `typeof requestBody === 'string'` where `none` is `undefined`. -/
def isStrVal : Option JsonValue → Bool
  | some (.str _) => true
  | _ => false

/-- The string content of a string-typed value. -/
def strValOf : Option JsonValue → String
  | some (.str s) => s
  | _ => ""

/-- Strict equality of `method` against the three body-carrying verbs. -/
def isBodyVerb (m : JsonValue) : Bool :=
  m == .str "POST" || m == .str "PUT" || m == .str "PATCH"

/-- Whether `fetchOptions.headers['Content-Type']` (a case-sensitive plain
object lookup) exists and its lower-cased value contains `json`. -/
def ctIncludesJson (headers : List (String × String)) : Bool :=
  match List.lookup "Content-Type" headers with
  | some v => strIncludes (strLower v) "json"
  | none => false

/-- The json module's body handling: a string body verbatim, anything else
`JSON.stringify`-ed (which cannot throw on JSON-derived values). -/
def bodyStepJson (requestBody : Option JsonValue) (method : JsonValue) : Option String :=
  if truthyOpt requestBody && isBodyVerb method then
    some (if isStrVal requestBody then strValOf requestBody
      else jsonStringify (requestBody.getD .null))
  else none

/-- The xml/rdf modules' body handling: a string body verbatim, a non-string
body serialized only under a json `Content-Type`, otherwise a 400.  `comma`
selects the xml module's message (it has a comma the rdf module's lacks). -/
def bodyStepStrict (comma : Bool) (requestBody : Option JsonValue) (method : JsonValue)
    (headers : List (String × String)) : Except Resp (Option String) :=
  if truthyOpt requestBody && isBodyVerb method then
    if isStrVal requestBody then .ok (some (strValOf requestBody))
    else if ctIncludesJson headers then .ok (some (jsonStringify (requestBody.getD .null)))
    else .error (errorResponse
      (if comma then
        "Request body must be a string for non-JSON content types, or if 'Content-Type' is not 'application/json'."
       else
        "Request body must be a string for non-JSON content types or if 'Content-Type' is not 'application/json'.") 400 none)
  else .ok none

/-- `response.ok`: status in the inclusive range 200–299. -/
def upstreamOk (r : UpstreamResponse) : Bool :=
  decide (200 ≤ r.status) && decide (r.status < 300)

/-- The `errorBody` captured for a failed upstream call: `.text()`'s value,
or `null` when reading the body throws (the `catch` ignores it). -/
def errorBodyOf (r : UpstreamResponse) : Option String :=
  match r.textResult with
  | .ok t => some t
  | .error _ => none

/-- The response built for a non-ok upstream status: 401/403 pass through as
an authentication failure, everything else becomes a 502, both carrying the
original status, status text and body. -/
def upstreamFailResp (r : UpstreamResponse) : Resp :=
  if r.status = 401 || r.status = 403 then
    errorResponse "Authentication failed with external API." r.status
      (some (.upstream r.status r.statusText (errorBodyOf r)))
  else
    errorResponse "External API request failed." 502
      (some (.upstream r.status r.statusText (errorBodyOf r)))

/-- Shared post-fetch control flow: a rejected `fetch` promise becomes a
502 network-error response; a non-ok status becomes `upstreamFailResp`; an
ok response is handed to the format-specific parse phase. -/
def handleUpstream (fb : FetchOutcome) (onOk : UpstreamResponse → PostFetch) : PostFetch :=
  match fb with
  | .networkError m =>
    pfResp (errorResponse "External API request failed (network error)." 502 (some (.msg m)))
  | .response r =>
    if upstreamOk r then onOk r else pfResp (upstreamFailResp r)

/-- Case-insensitive `Headers.get` on the upstream response's headers
(returns the first match, `none` for `null`). -/
def headersGet (hs : List (String × String)) (k : String) : Option String :=
  match hs.find? (fun p => strLower p.1 == strLower k) with
  | some p => some p.2
  | none => none

/-!
## The three route handlers
-/

/-- The rdf module binds `rdfParserInstance` at module scope from the static
`rdf-parse` import, which does export `rdfParser.parse`; in the deployed
module the instance is therefore available. -/
def rdfParserInstanceAvailable : Bool := true

/-- Likewise, `require("arrayify-stream")` yields an object whose
`arrayifyStream` member is a function (the module's own log comment records
this), so the bound function is available. -/
def actualUsableArrayifyStreamAvailable : Bool := true

/-- Content-type resolution for RDF parsing (rdf module):
`rdfOptions?.contentType || response.headers.get("content-type") || undefined`.
A falsy override falls through to the header; an absent or empty header
yields `undefined`. -/
def resolvedContentType (rdfOptions : JsonValue) (respHeaders : List (String × String)) :
    Option JsonValue :=
  if truthy (getField rdfOptions "contentType" |>.getD .null) then
    getField rdfOptions "contentType"
  else
    match headersGet respHeaders "content-type" with
    | some s => if s == "" then none else some (.str s)
    | none => none

/-- Settlement of the Promise wrapping the quad stream: the explicit
`error` listener rejects on the first error event; `arrayifyStream`
resolves with the accumulated quads only when the stream ends without an
error (it too rejects on error — either way the first settlement wins, so
an error event anywhere in the stream's event sequence makes the promise
reject with that first error, and otherwise it resolves with all quads in
order). -/
def streamOutcome : List QuadEvent → Except RdfError (List Quad)
  | [] => .ok []
  | .err e :: _ => .error e
  | .quad q :: rest =>
    match streamOutcome rest with
    | .ok qs => .ok (q :: qs)
    | .error e => .error e

/-- The `method` request field, defaulting to `"GET"` when absent. -/
def reqMethod (fields : JsonFields) : JsonValue :=
  (lookupLast fields "method").getD (.str "GET")

/-- The stringified `apiUrl`, as `fetch` receives it. -/
def reqUrl (fields : JsonFields) : String :=
  jsToStringOpt (lookupLast fields "apiUrl")

/-- The outbound headers before authentication: the defaults overridden by
the caller's `headers` field. -/
def frontHeaders (fields : JsonFields) : List (String × String) :=
  buildHeaders (extractHeaders (lookupLast fields "headers"))

/-- The json module's parse phase: `response.json()` succeeds (200 with the
value) or throws (422). -/
def jsonParsePhase (r : UpstreamResponse) : PostFetch :=
  match r.jsonResult with
  | .error m =>
    pfResp (errorResponse "Failed to parse JSON response from external API." 422 (some (.msg m)))
  | .ok v => pfResp ⟨200, .success (.json v)⟩

/-- The json route module's `POST` handler.  `fb` is the behavior of the
one outbound `fetch`. -/
def jsonPOST (inbound : Inbound) (fb : FetchOutcome) : GatewayOutcome :=
  match inbound with
  | .malformed e => reject (errorResponse "Invalid JSON in request body." 400 (some (.msg e)))
  | .parsed fields =>
    match validateStep "json" fields with
    | some r => reject r
    | none =>
      match authHeadersStep false (lookupLast fields "authentication") (frontHeaders fields) with
      | .error r => reject r
      | .ok hdrs =>
        let body := bodyStepJson (lookupLast fields "body") (reqMethod fields)
        called ⟨reqUrl fields, reqMethod fields, hdrs, body⟩ (handleUpstream fb jsonParsePhase)

/-- The xml module's parse phase: read the body text, validate
well-formedness, and only then run the full parse with the caller-supplied
options.  `validate` and `parseXml` are the behaviors of
`fast-xml-parser`'s `XMLValidator.validate` and
`new XMLParser(options).parse` on this run's inputs (external library
code); an `error` result of `parseXml` models `parse` throwing. -/
def xmlParsePhase (validate : String → XmlValidation)
    (parseXml : JsonValue → String → Except String JsonValue)
    (xmlParserOptions : JsonValue) (r : UpstreamResponse) : PostFetch :=
  match r.textResult with
  | .error m =>
    pfResp (errorResponse "Failed to read text response from external API for XML parsing."
      500 (some (.msg m)))
  | .ok xmlText =>
    match validate xmlText with
    | .invalid e =>
      pfResp (errorResponse "Failed to validate XML response: Malformed XML." 422
        (some (.xmlErr e)))
    | .valid =>
      match parseXml xmlParserOptions xmlText with
      | .error m =>
        ⟨errorResponse "Failed to parse XML response from external API." 422
          (some (.msg m)), [], [⟨xmlParserOptions, xmlText⟩], 0⟩
      | .ok v => ⟨⟨200, .success (.xml v)⟩, [], [⟨xmlParserOptions, xmlText⟩], 0⟩

/-- The xml route module's `POST` handler. -/
def xmlPOST (validate : String → XmlValidation)
    (parseXml : JsonValue → String → Except String JsonValue)
    (inbound : Inbound) (fb : FetchOutcome) : GatewayOutcome :=
  match inbound with
  | .malformed e => reject (errorResponse "Invalid JSON in request body." 400 (some (.msg e)))
  | .parsed fields =>
    match validateStep "xml" fields with
    | some r => reject r
    | none =>
      match authHeadersStep false (lookupLast fields "authentication") (frontHeaders fields) with
      | .error r => reject r
      | .ok hdrs =>
        match bodyStepStrict true (lookupLast fields "body") (reqMethod fields) hdrs with
        | .error r => reject r
        | .ok body =>
          called ⟨reqUrl fields, reqMethod fields, hdrs, body⟩
            (handleUpstream fb
              (xmlParsePhase validate parseXml ((lookupLast fields "xmlParserOptions").getD (.obj .nil))))

/-- The rdf module's parse phase: read the body text, resolve the content
type (warning when it resolves to nothing), parse the quad stream, and
settle on the stream's outcome.  `rdfParse` is the behavior of the external
`rdf-parse` library on this run's inputs: the sequence of events the quad
stream emits for the given text and parse options. -/
def rdfParsePhase (rdfParse : String → RdfParseOpts → List QuadEvent)
    (rdfOptions : JsonValue) (r : UpstreamResponse) : PostFetch :=
  match r.textResult with
  | .error m =>
    pfResp (errorResponse "Failed to read text response from external API for RDF parsing."
      500 (some (.msg m)))
  | .ok rdfText =>
    let contentType := resolvedContentType rdfOptions r.headers
    let warnCount : Nat := if contentType = none then 1 else 0
    let opts : RdfParseOpts := ⟨contentType, getField rdfOptions "baseIRI"⟩
    match streamOutcome (rdfParse rdfText opts) with
    | .error e =>
      ⟨errorResponse ("Failed to parse RDF response from external API: " ++ e.msg) 422
        (some (.msg e.stack)), [opts], [], warnCount⟩
    | .ok quads => ⟨⟨200, .success (.rdf quads)⟩, [opts], [], warnCount⟩

/-- The rdf route module's `POST` handler. -/
def rdfPOST (rdfParse : String → RdfParseOpts → List QuadEvent)
    (inbound : Inbound) (fb : FetchOutcome) : GatewayOutcome :=
  match inbound with
  | .malformed e => reject (errorResponse "Invalid JSON in request body." 400 (some (.msg e)))
  | .parsed fields =>
    match validateStep "rdf" fields with
    | some r => reject r
    | none =>
      if rdfParserInstanceAvailable = false then
        reject (errorResponse "RDF parser instance not available." 500 none)
      else if actualUsableArrayifyStreamAvailable = false then
        reject (errorResponse "actualUsableArrayifyStream function not available." 500 none)
      else
        match authHeadersStep true (lookupLast fields "authentication") (frontHeaders fields) with
        | .error r => reject r
        | .ok hdrs =>
          match bodyStepStrict false (lookupLast fields "body") (reqMethod fields) hdrs with
          | .error r => reject r
          | .ok body =>
            called ⟨reqUrl fields, reqMethod fields, hdrs, body⟩
              (handleUpstream fb
                (rdfParsePhase rdfParse ((lookupLast fields "rdf").getD (.obj .nil))))

/-!
## Spec-side model of the validation precedence (claim C2)
-/

/-- The error message of a failure response, `none` on success. -/
def respError (o : GatewayOutcome) : Option String :=
  match o.resp.body with
  | .failure e _ => some e
  | .success _ => none

/-- The `details` of a failure response. -/
def respDetails (o : GatewayOutcome) : Option Details :=
  match o.resp.body with
  | .failure _ d => d
  | .success _ => none

/-- The validation violations claim C2 enumerates, in its order. -/
inductive Violation where
  | malformedJson (msg : String)
  | missingApiUrl
  | missingDataType
  | dataTypeMismatch (got : Option JsonValue)
  | missingAuthParts
  | badApiKey
  | badBearer
  | badBasic
  deriving DecidableEq

/-- Modelled from the spec's words (§4.1, claim C2), authentication part:
if authentication is present, missing `type`/`credentials` first, then the
kind-specific missing sub-fields (apiKey: key or header name; bearerToken:
token; basicAuth: username, or password checked for presence rather than
truthiness). -/
def authViolation (authentication : Option JsonValue) : Option Violation :=
  if truthyOpt authentication = false then none
  else
    let t := getFieldO authentication "type"
    let credentials := getFieldO authentication "credentials"
    if (truthyOpt t && truthyOpt credentials) = false then some .missingAuthParts
    else if t = some (.str "apiKey") then
      if (truthyOpt (getFieldO credentials "key")
          && truthyOpt (getFieldO credentials "headerName")) = false then some .badApiKey
      else none
    else if t = some (.str "bearerToken") then
      if truthyOpt (getFieldO credentials "token") = false then some .badBearer else none
    else if t = some (.str "basicAuth") then
      if (truthyOpt (getFieldO credentials "username")
          && (getFieldO credentials "password").isSome) = false then some .badBasic
      else none
    else none

/-- Modelled from the spec's words (§4.1, claim C2): the first violated
field in the stated precedence — malformed inbound JSON, then missing
`apiUrl`, then missing `dataType`, then `dataType` mismatched against the
entry point, then the authentication violations. -/
def firstViolation (fmt : String) : Inbound → Option Violation
  | .malformed m => some (.malformedJson m)
  | .parsed fields =>
    if truthyOpt (lookupLast fields "apiUrl") = false then some .missingApiUrl
    else if truthyOpt (lookupLast fields "dataType") = false then some .missingDataType
    else if lookupLast fields "dataType" ≠ some (.str fmt) then
      some (.dataTypeMismatch (lookupLast fields "dataType"))
    else authViolation (lookupLast fields "authentication")

/-- The error message each module reports for each violation (`short`
selects the rdf module's terser messages). -/
def violationMessage (fmt : String) (short : Bool) : Violation → String
  | .malformedJson _ => "Invalid JSON in request body."
  | .missingApiUrl => "Missing 'apiUrl' in request body."
  | .missingDataType => "Missing 'dataType' in request body."
  | .dataTypeMismatch got =>
    "Invalid 'dataType'. Expected '" ++ fmt ++ "', got '" ++ jsToStringOpt got ++ "'."
  | .missingAuthParts =>
    if short then "Invalid 'authentication' object."
    else "Invalid 'authentication' object. Missing 'type' or 'credentials'."
  | .badApiKey =>
    if short then "Invalid 'apiKey' credentials."
    else "Invalid 'apiKey' credentials. Missing 'key' or 'headerName'."
  | .badBearer =>
    if short then "Invalid 'bearerToken' credentials."
    else "Invalid 'bearerToken' credentials. Missing 'token'."
  | .badBasic =>
    if short then "Invalid 'basicAuth' credentials."
    else "Invalid 'basicAuth' credentials. Missing 'username' or 'password'."

/-- Whether a stream event is an `error` event. -/
def isErrEvent : QuadEvent → Bool
  | .err _ => true
  | .quad _ => false

/-- The quads carried by a stream's event sequence, in order. -/
def quadsOf (evs : List QuadEvent) : List Quad :=
  evs.filterMap (fun e => match e with | .quad q => some q | .err _ => none)

/-- The event sequence the quad stream emits for an rdf request: the
library's behavior on the fetched text and the resolved parse options. -/
def rdfEventsOf (rdfParse : String → RdfParseOpts → List QuadEvent)
    (fields : JsonFields) (r : UpstreamResponse) (rdfText : String) : List QuadEvent :=
  rdfParse rdfText
    ⟨resolvedContentType ((lookupLast fields "rdf").getD (.obj .nil)) r.headers,
     getField ((lookupLast fields "rdf").getD (.obj .nil)) "baseIRI"⟩

theorem authViolation_error (short : Bool) (a : Option JsonValue)
    (h : List (String × String)) (v : Violation) (fmt : String)
    (hv : authViolation a = some v) :
    authHeadersStep short a h = .error (errorResponse (violationMessage fmt short v) 400 none) := by
  unfold authViolation at hv
  unfold authHeadersStep
  by_cases h1 : truthyOpt a = false
  · simp [h1] at hv
  · simp only [h1, if_false, if_neg] at hv ⊢
    by_cases h2 : (truthyOpt (getFieldO a "type") && truthyOpt (getFieldO a "credentials")) = false
    · simp only [h2, if_true, if_pos] at hv ⊢
      cases hv
      simp [violationMessage]
    · simp only [h2, if_false, if_neg] at hv ⊢
      by_cases h3 : getFieldO a "type" = some (.str "apiKey")
      · simp only [h3, if_true, if_pos] at hv ⊢
        by_cases h4 : (truthyOpt (getFieldO (getFieldO a "credentials") "key")
            && truthyOpt (getFieldO (getFieldO a "credentials") "headerName")) = false
        · simp only [h4, if_true, if_pos] at hv ⊢
          cases hv
          simp [violationMessage]
        · simp [h4] at hv
      · simp only [h3, if_false, if_neg] at hv ⊢
        by_cases h5 : getFieldO a "type" = some (.str "bearerToken")
        · simp only [h5, if_true, if_pos] at hv ⊢
          by_cases h6 : truthyOpt (getFieldO (getFieldO a "credentials") "token") = false
          · simp only [h6, if_true, if_pos] at hv ⊢
            cases hv
            simp [violationMessage]
          · simp [h6] at hv
        · simp only [h5, if_false, if_neg] at hv ⊢
          by_cases h7 : getFieldO a "type" = some (.str "basicAuth")
          · simp only [h7, if_true, if_pos] at hv ⊢
            by_cases h8 : (truthyOpt (getFieldO (getFieldO a "credentials") "username")
                && (getFieldO (getFieldO a "credentials") "password").isSome) = false
            · simp only [h8, if_true, if_pos] at hv ⊢
              cases hv
              simp [violationMessage]
            · simp [h8] at hv
          · simp [h7] at hv

theorem jsonPOST_violation (fields : JsonFields) (fb : FetchOutcome) (v : Violation)
    (hv : firstViolation "json" (.parsed fields) = some v) :
    jsonPOST (.parsed fields) fb
      = reject (errorResponse (violationMessage "json" false v) 400 none) := by
  simp only [firstViolation] at hv
  simp only [jsonPOST, validateStep]
  by_cases h1 : truthyOpt (lookupLast fields "apiUrl") = false
  · rw [if_pos h1] at hv
    cases hv
    rw [if_pos h1]
    rfl
  · rw [if_neg h1] at hv
    rw [if_neg h1]
    by_cases h2 : truthyOpt (lookupLast fields "dataType") = false
    · rw [if_pos h2] at hv
      cases hv
      rw [if_pos h2]
      rfl
    · rw [if_neg h2] at hv
      rw [if_neg h2]
      by_cases h3 : lookupLast fields "dataType" ≠ some (.str "json")
      · rw [if_pos h3] at hv
        cases hv
        rw [if_pos h3]
        rfl
      · rw [if_neg h3] at hv
        rw [if_neg h3]
        rw [authViolation_error false (lookupLast fields "authentication")
          (frontHeaders fields) v "json" hv]

theorem xmlPOST_violation (validate : String → XmlValidation)
    (parseXml : JsonValue → String → Except String JsonValue)
    (fields : JsonFields) (fb : FetchOutcome) (v : Violation)
    (hv : firstViolation "xml" (.parsed fields) = some v) :
    xmlPOST validate parseXml (.parsed fields) fb
      = reject (errorResponse (violationMessage "xml" false v) 400 none) := by
  simp only [firstViolation] at hv
  simp only [xmlPOST, validateStep]
  by_cases h1 : truthyOpt (lookupLast fields "apiUrl") = false
  · rw [if_pos h1] at hv
    cases hv
    rw [if_pos h1]
    rfl
  · rw [if_neg h1] at hv
    rw [if_neg h1]
    by_cases h2 : truthyOpt (lookupLast fields "dataType") = false
    · rw [if_pos h2] at hv
      cases hv
      rw [if_pos h2]
      rfl
    · rw [if_neg h2] at hv
      rw [if_neg h2]
      by_cases h3 : lookupLast fields "dataType" ≠ some (.str "xml")
      · rw [if_pos h3] at hv
        cases hv
        rw [if_pos h3]
        rfl
      · rw [if_neg h3] at hv
        rw [if_neg h3]
        rw [authViolation_error false (lookupLast fields "authentication")
          (frontHeaders fields) v "xml" hv]

theorem rdfPOST_violation (rdfParse : String → RdfParseOpts → List QuadEvent)
    (fields : JsonFields) (fb : FetchOutcome) (v : Violation)
    (hv : firstViolation "rdf" (.parsed fields) = some v) :
    rdfPOST rdfParse (.parsed fields) fb
      = reject (errorResponse (violationMessage "rdf" true v) 400 none) := by
  simp only [firstViolation] at hv
  simp only [rdfPOST, validateStep]
  by_cases h1 : truthyOpt (lookupLast fields "apiUrl") = false
  · rw [if_pos h1] at hv
    cases hv
    rw [if_pos h1]
    rfl
  · rw [if_neg h1] at hv
    rw [if_neg h1]
    by_cases h2 : truthyOpt (lookupLast fields "dataType") = false
    · rw [if_pos h2] at hv
      cases hv
      rw [if_pos h2]
      rfl
    · rw [if_neg h2] at hv
      rw [if_neg h2]
      by_cases h3 : lookupLast fields "dataType" ≠ some (.str "rdf")
      · rw [if_pos h3] at hv
        cases hv
        rw [if_pos h3]
        rfl
      · rw [if_neg h3] at hv
        rw [if_neg h3]
        rw [authViolation_error true (lookupLast fields "authentication")
          (frontHeaders fields) v "rdf" hv]
        rfl

/-- Claim C2: for every inbound request, validation failures are reported
for the first violated field in exactly the stated precedence (malformed
inbound JSON, missing `apiUrl`, missing `dataType`, `dataType` mismatched
against the entry point, then — if authentication is present — missing
`type` or `credentials`, then kind-specific missing sub-fields, with the
basicAuth password checked for presence rather than truthiness); the first
violation produces a 400 error response naming that field and no outbound
fetch call is attempted, in each of the three handlers. -/
theorem C2_first_violation_reported (inb : Inbound) (fb : FetchOutcome)
    (validate : String → XmlValidation)
    (parseXml : JsonValue → String → Except String JsonValue)
    (rdfParse : String → RdfParseOpts → List QuadEvent) (v : Violation) :
    (firstViolation "json" inb = some v →
      (jsonPOST inb fb).resp.status = 400 ∧ (jsonPOST inb fb).fetchCalls = [] ∧
      respError (jsonPOST inb fb) = some (violationMessage "json" false v)) ∧
    (firstViolation "xml" inb = some v →
      (xmlPOST validate parseXml inb fb).resp.status = 400 ∧
      (xmlPOST validate parseXml inb fb).fetchCalls = [] ∧
      respError (xmlPOST validate parseXml inb fb) = some (violationMessage "xml" false v)) ∧
    (firstViolation "rdf" inb = some v →
      (rdfPOST rdfParse inb fb).resp.status = 400 ∧
      (rdfPOST rdfParse inb fb).fetchCalls = [] ∧
      respError (rdfPOST rdfParse inb fb) = some (violationMessage "rdf" true v)) := by
  refine ⟨fun hv => ?_, fun hv => ?_, fun hv => ?_⟩
  · cases inb with
    | malformed m =>
      simp only [firstViolation] at hv
      cases hv
      simp [jsonPOST, reject, errorResponse, respError, violationMessage]
    | parsed fields =>
      rw [jsonPOST_violation fields fb v hv]
      simp [reject, errorResponse, respError]
  · cases inb with
    | malformed m =>
      simp only [firstViolation] at hv
      cases hv
      simp [xmlPOST, reject, errorResponse, respError, violationMessage]
    | parsed fields =>
      rw [xmlPOST_violation validate parseXml fields fb v hv]
      simp [reject, errorResponse, respError]
  · cases inb with
    | malformed m =>
      simp only [firstViolation] at hv
      cases hv
      simp [rdfPOST, reject, errorResponse, respError, violationMessage]
    | parsed fields =>
      rw [rdfPOST_violation rdfParse fields fb v hv]
      simp [reject, errorResponse, respError]

/-- Witness for C2 at a concrete request missing `dataType`: all three
handlers report the missing field with a 400 and make no outbound call. -/
theorem C2_witness :
    firstViolation "json" (.parsed (jfields [("apiUrl", .str "u")])) = some .missingDataType ∧
    respError (jsonPOST (.parsed (jfields [("apiUrl", .str "u")])) (.networkError "n"))
      = some "Missing 'dataType' in request body." ∧
    (jsonPOST (.parsed (jfields [("apiUrl", .str "u")])) (.networkError "n")).fetchCalls = [] ∧
    respError (rdfPOST (fun _ _ => []) (.parsed (jfields [("apiUrl", .str "u")])) (.networkError "n"))
      = some "Missing 'dataType' in request body." := by
  have h := C2_first_violation_reported (.parsed (jfields [("apiUrl", .str "u")]))
    (.networkError "n") (fun _ => .valid) (fun _ _ => .ok .null) (fun _ _ => [])
    .missingDataType
  refine ⟨by decide, ?_, ?_, ?_⟩
  · exact (h.1 (by decide)).2.2
  · exact (h.1 (by decide)).2.1
  · exact (h.2.2 (by decide)).2.2

/-- Counterexample to claim C1 as stated: a request whose `dataType` is
present (`"csv"`, differing from every entry point's format) but whose
`apiUrl` is absent.  Each handler does return 400 and makes no outbound
call, but the error message is the missing-`apiUrl` message, which names
neither the expected format nor the received one. -/
theorem C1_counterexample :
    lookupLast (jfields [("dataType", .str "csv")]) "dataType" = some (.str "csv") ∧
    respError (jsonPOST (.parsed (jfields [("dataType", .str "csv")])) (.networkError "n"))
      = some "Missing 'apiUrl' in request body." ∧
    respError (xmlPOST (fun _ => .valid) (fun _ _ => .ok .null)
        (.parsed (jfields [("dataType", .str "csv")])) (.networkError "n"))
      = some "Missing 'apiUrl' in request body." ∧
    respError (rdfPOST (fun _ _ => [])
        (.parsed (jfields [("dataType", .str "csv")])) (.networkError "n"))
      = some "Missing 'apiUrl' in request body." ∧
    strIncludes "Missing 'apiUrl' in request body." "csv" = false ∧
    strIncludes "Missing 'apiUrl' in request body." "json" = false ∧
    strIncludes "Missing 'apiUrl' in request body." "xml" = false ∧
    strIncludes "Missing 'apiUrl' in request body." "rdf" = false := by
  decide

/-- Claim C1 (amended): for every inbound request that parses to an
envelope whose `apiUrl` is truthy and whose `dataType` is truthy but
differs from the entry point's declared format, each of the three handlers
returns status 400 with an error message naming both the expected format
and the received format, and no outbound fetch call is made. -/
theorem C1_mismatch_rejected (fields : JsonFields) (fb : FetchOutcome)
    (validate : String → XmlValidation)
    (parseXml : JsonValue → String → Except String JsonValue)
    (rdfParse : String → RdfParseOpts → List QuadEvent)
    (hurl : truthyOpt (lookupLast fields "apiUrl") = true)
    (hdt : truthyOpt (lookupLast fields "dataType") = true) :
    (lookupLast fields "dataType" ≠ some (.str "json") →
      (jsonPOST (.parsed fields) fb).resp.status = 400 ∧
      (jsonPOST (.parsed fields) fb).fetchCalls = [] ∧
      respError (jsonPOST (.parsed fields) fb)
        = some ("Invalid 'dataType'. Expected 'json', got '"
            ++ jsToStringOpt (lookupLast fields "dataType") ++ "'.")) ∧
    (lookupLast fields "dataType" ≠ some (.str "xml") →
      (xmlPOST validate parseXml (.parsed fields) fb).resp.status = 400 ∧
      (xmlPOST validate parseXml (.parsed fields) fb).fetchCalls = [] ∧
      respError (xmlPOST validate parseXml (.parsed fields) fb)
        = some ("Invalid 'dataType'. Expected 'xml', got '"
            ++ jsToStringOpt (lookupLast fields "dataType") ++ "'.")) ∧
    (lookupLast fields "dataType" ≠ some (.str "rdf") →
      (rdfPOST rdfParse (.parsed fields) fb).resp.status = 400 ∧
      (rdfPOST rdfParse (.parsed fields) fb).fetchCalls = [] ∧
      respError (rdfPOST rdfParse (.parsed fields) fb)
        = some ("Invalid 'dataType'. Expected 'rdf', got '"
            ++ jsToStringOpt (lookupLast fields "dataType") ++ "'.")) := by
  refine ⟨fun hne => ?_, fun hne => ?_, fun hne => ?_⟩
  · have hfv : firstViolation "json" (.parsed fields)
        = some (.dataTypeMismatch (lookupLast fields "dataType")) := by
      simp only [firstViolation, hurl, hdt]
      simp [hne]
    rw [jsonPOST_violation fields fb _ hfv]
    simp [reject, errorResponse, respError, violationMessage]
  · have hfv : firstViolation "xml" (.parsed fields)
        = some (.dataTypeMismatch (lookupLast fields "dataType")) := by
      simp only [firstViolation, hurl, hdt]
      simp [hne]
    rw [xmlPOST_violation validate parseXml fields fb _ hfv]
    simp [reject, errorResponse, respError, violationMessage]
  · have hfv : firstViolation "rdf" (.parsed fields)
        = some (.dataTypeMismatch (lookupLast fields "dataType")) := by
      simp only [firstViolation, hurl, hdt]
      simp [hne]
    rw [rdfPOST_violation rdfParse fields fb _ hfv]
    simp [reject, errorResponse, respError, violationMessage]

/-- Witness for the amended C1 at `dataType = "csv"`. -/
theorem C1_witness :
    truthyOpt (lookupLast (jfields [("apiUrl", .str "u"), ("dataType", .str "csv")]) "apiUrl") = true ∧
    respError (jsonPOST (.parsed (jfields [("apiUrl", .str "u"), ("dataType", .str "csv")]))
        (.networkError "n"))
      = some "Invalid 'dataType'. Expected 'json', got 'csv'." := by
  have h := C1_mismatch_rejected (jfields [("apiUrl", .str "u"), ("dataType", .str "csv")])
    (.networkError "n") (fun _ => .valid) (fun _ _ => .ok .null) (fun _ _ => [])
    (by decide) (by decide)
  exact ⟨by decide, (h.1 (by decide)).2.2⟩

/-!
## Run lemmas: a request that passes the pre-fetch stages reaches `fetch`
-/

theorem jsonPOST_run (fields : JsonFields) (fb : FetchOutcome) (hdrs : List (String × String))
    (h1 : truthyOpt (lookupLast fields "apiUrl") = true)
    (h3 : lookupLast fields "dataType" = some (.str "json"))
    (ha : authHeadersStep false (lookupLast fields "authentication") (frontHeaders fields)
      = .ok hdrs) :
    jsonPOST (.parsed fields) fb
      = called ⟨reqUrl fields, reqMethod fields, hdrs,
          bodyStepJson (lookupLast fields "body") (reqMethod fields)⟩
          (handleUpstream fb jsonParsePhase) := by
  simp only [jsonPOST, validateStep, h1, h3]
  rw [ha]
  simp [truthyOpt, truthy]

theorem xmlPOST_run (validate : String → XmlValidation)
    (parseXml : JsonValue → String → Except String JsonValue)
    (fields : JsonFields) (fb : FetchOutcome) (hdrs : List (String × String))
    (body : Option String)
    (h1 : truthyOpt (lookupLast fields "apiUrl") = true)
    (h3 : lookupLast fields "dataType" = some (.str "xml"))
    (ha : authHeadersStep false (lookupLast fields "authentication") (frontHeaders fields)
      = .ok hdrs)
    (hb : bodyStepStrict true (lookupLast fields "body") (reqMethod fields) hdrs = .ok body) :
    xmlPOST validate parseXml (.parsed fields) fb
      = called ⟨reqUrl fields, reqMethod fields, hdrs, body⟩
          (handleUpstream fb
            (xmlParsePhase validate parseXml ((lookupLast fields "xmlParserOptions").getD (.obj .nil)))) := by
  simp only [xmlPOST, validateStep, h1, h3]
  rw [ha]
  simp only [truthyOpt, truthy]
  simp only [show ((some (JsonValue.str "xml") ≠ some (JsonValue.str "xml")) = False) by simp]
  simp only [if_false, Bool.false_eq_true, ite_false, ite_true]
  rw [hb]
  simp

theorem rdfPOST_run (rdfParse : String → RdfParseOpts → List QuadEvent)
    (fields : JsonFields) (fb : FetchOutcome) (hdrs : List (String × String))
    (body : Option String)
    (h1 : truthyOpt (lookupLast fields "apiUrl") = true)
    (h3 : lookupLast fields "dataType" = some (.str "rdf"))
    (ha : authHeadersStep true (lookupLast fields "authentication") (frontHeaders fields)
      = .ok hdrs)
    (hb : bodyStepStrict false (lookupLast fields "body") (reqMethod fields) hdrs = .ok body) :
    rdfPOST rdfParse (.parsed fields) fb
      = called ⟨reqUrl fields, reqMethod fields, hdrs, body⟩
          (handleUpstream fb
            (rdfParsePhase rdfParse ((lookupLast fields "rdf").getD (.obj .nil)))) := by
  simp only [rdfPOST, validateStep, h1, h3]
  simp only [rdfParserInstanceAvailable, actualUsableArrayifyStreamAvailable]
  rw [ha]
  simp only [truthyOpt, truthy]
  simp only [show ((some (JsonValue.str "rdf") ≠ some (JsonValue.str "rdf")) = False) by simp]
  simp only [if_false, Bool.false_eq_true, ite_false, ite_true]
  rw [hb]
  simp

theorem called_upstream_fail (c : FetchCall) (onOk : UpstreamResponse → PostFetch)
    (r : UpstreamResponse) (hok : upstreamOk r = false) :
    (called c (handleUpstream (.response r) onOk)).resp = upstreamFailResp r := by
  simp [called, handleUpstream, hok, pfResp]

theorem upstreamFailResp_spec (r : UpstreamResponse) :
    (upstreamFailResp r).status = (if r.status = 401 ∨ r.status = 403 then r.status else 502) ∧
    (upstreamFailResp r).body
      = .failure (if r.status = 401 ∨ r.status = 403 then
            "Authentication failed with external API."
          else "External API request failed.")
          (some (.upstream r.status r.statusText (errorBodyOf r))) := by
  unfold upstreamFailResp
  by_cases h : r.status = 401 ∨ r.status = 403
  · have hb : (decide (r.status = 401) || decide (r.status = 403)) = true := by
      rcases h with h | h <;> simp [h]
    rw [if_pos hb, if_pos h, if_pos h]
    exact ⟨rfl, rfl⟩
  · have hb : ¬((decide (r.status = 401) || decide (r.status = 403)) = true) := by
      push_neg at h
      simp [h.1, h.2]
    rw [if_neg hb, if_neg h, if_neg h]
    exact ⟨rfl, rfl⟩

theorem jsonPOST_called_inv (inb : Inbound) (fb : FetchOutcome)
    (hcalls : (jsonPOST inb fb).fetchCalls ≠ []) :
    ∃ c, jsonPOST inb fb = called c (handleUpstream fb jsonParsePhase) := by
  cases inb with
  | malformed m => simp [jsonPOST, reject] at hcalls
  | parsed fields =>
    simp only [jsonPOST] at hcalls ⊢
    cases hv : validateStep "json" fields with
    | some r0 => rw [hv] at hcalls; simp [reject] at hcalls
    | none =>
      cases ha : authHeadersStep false (lookupLast fields "authentication") (frontHeaders fields) with
      | error r0 => rw [hv, ha] at hcalls; simp [reject] at hcalls
      | ok hdrs => exact ⟨_, rfl⟩

theorem xmlPOST_called_inv (validate : String → XmlValidation)
    (parseXml : JsonValue → String → Except String JsonValue)
    (inb : Inbound) (fb : FetchOutcome)
    (hcalls : (xmlPOST validate parseXml inb fb).fetchCalls ≠ []) :
    ∃ c fields, inb = .parsed fields ∧
      xmlPOST validate parseXml inb fb
        = called c (handleUpstream fb
            (xmlParsePhase validate parseXml ((lookupLast fields "xmlParserOptions").getD (.obj .nil)))) := by
  cases inb with
  | malformed m => simp [xmlPOST, reject] at hcalls
  | parsed fields =>
    simp only [xmlPOST] at hcalls ⊢
    cases hv : validateStep "xml" fields with
    | some r0 => rw [hv] at hcalls; simp [reject] at hcalls
    | none =>
      cases ha : authHeadersStep false (lookupLast fields "authentication") (frontHeaders fields) with
      | error r0 => rw [hv, ha] at hcalls; simp [reject] at hcalls
      | ok hdrs =>
        cases hb : bodyStepStrict true (lookupLast fields "body") (reqMethod fields) hdrs with
        | error r0 => simp [hv, ha, hb, reject] at hcalls
        | ok body =>
          exact ⟨⟨reqUrl fields, reqMethod fields, hdrs, body⟩, fields, rfl, by simp [hb]⟩

theorem rdfPOST_called_inv (rdfParse : String → RdfParseOpts → List QuadEvent)
    (inb : Inbound) (fb : FetchOutcome)
    (hcalls : (rdfPOST rdfParse inb fb).fetchCalls ≠ []) :
    ∃ c fields, inb = .parsed fields ∧
      rdfPOST rdfParse inb fb
        = called c (handleUpstream fb
            (rdfParsePhase rdfParse ((lookupLast fields "rdf").getD (.obj .nil)))) := by
  cases inb with
  | malformed m => simp [rdfPOST, reject] at hcalls
  | parsed fields =>
    simp only [rdfPOST, rdfParserInstanceAvailable, actualUsableArrayifyStreamAvailable] at hcalls ⊢
    cases hv : validateStep "rdf" fields with
    | some r0 => rw [hv] at hcalls; simp [reject] at hcalls
    | none =>
      cases ha : authHeadersStep true (lookupLast fields "authentication") (frontHeaders fields) with
      | error r0 => simp [hv, ha, reject] at hcalls
      | ok hdrs =>
        cases hb : bodyStepStrict false (lookupLast fields "body") (reqMethod fields) hdrs with
        | error r0 => simp [hv, ha, hb, reject] at hcalls
        | ok body =>
          exact ⟨⟨reqUrl fields, reqMethod fields, hdrs, body⟩, fields, rfl, by simp [hb]⟩

/-- Claim C4: for every outbound call that completes with a non-success
status code, the gateway returns 401 or 403 (passing the upstream status
through) exactly when the upstream status is 401 or 403, and 502 for every
other non-success upstream status; in both cases the body has
`success:false` and a `details` object carrying the upstream's
`originalStatus`, `originalStatusText` and `originalBody`. -/
theorem C4_upstream_failure_mapping (inb : Inbound)
    (validate : String → XmlValidation)
    (parseXml : JsonValue → String → Except String JsonValue)
    (rdfParse : String → RdfParseOpts → List QuadEvent)
    (r : UpstreamResponse) (hok : upstreamOk r = false) :
    ((jsonPOST inb (.response r)).fetchCalls ≠ [] →
      (jsonPOST inb (.response r)).resp
        = errorResponse
            (if r.status = 401 ∨ r.status = 403 then "Authentication failed with external API."
             else "External API request failed.")
            (if r.status = 401 ∨ r.status = 403 then r.status else 502)
            (some (.upstream r.status r.statusText (errorBodyOf r)))) ∧
    ((xmlPOST validate parseXml inb (.response r)).fetchCalls ≠ [] →
      (xmlPOST validate parseXml inb (.response r)).resp
        = errorResponse
            (if r.status = 401 ∨ r.status = 403 then "Authentication failed with external API."
             else "External API request failed.")
            (if r.status = 401 ∨ r.status = 403 then r.status else 502)
            (some (.upstream r.status r.statusText (errorBodyOf r)))) ∧
    ((rdfPOST rdfParse inb (.response r)).fetchCalls ≠ [] →
      (rdfPOST rdfParse inb (.response r)).resp
        = errorResponse
            (if r.status = 401 ∨ r.status = 403 then "Authentication failed with external API."
             else "External API request failed.")
            (if r.status = 401 ∨ r.status = 403 then r.status else 502)
            (some (.upstream r.status r.statusText (errorBodyOf r)))) := by
  have hspec : upstreamFailResp r
      = errorResponse
          (if r.status = 401 ∨ r.status = 403 then "Authentication failed with external API."
           else "External API request failed.")
          (if r.status = 401 ∨ r.status = 403 then r.status else 502)
          (some (.upstream r.status r.statusText (errorBodyOf r))) := by
    obtain ⟨hs, hb⟩ := upstreamFailResp_spec r
    rw [show upstreamFailResp r
        = Resp.mk (upstreamFailResp r).status (upstreamFailResp r).body from rfl, hs, hb]
    rfl
  refine ⟨fun hc => ?_, fun hc => ?_, fun hc => ?_⟩
  · obtain ⟨c, he⟩ := jsonPOST_called_inv inb (.response r) hc
    rw [he, called_upstream_fail c jsonParsePhase r hok, hspec]
  · obtain ⟨c, fields, _, he⟩ := xmlPOST_called_inv validate parseXml inb (.response r) hc
    rw [he, called_upstream_fail c _ r hok, hspec]
  · obtain ⟨c, fields, _, he⟩ := rdfPOST_called_inv rdfParse inb (.response r) hc
    rw [he, called_upstream_fail c _ r hok, hspec]

/-- Witness for C4: an upstream 503 maps to a 502 with the original status
in the details, an upstream 401 passes through. -/
theorem C4_witness :
    upstreamOk ⟨503, "Service Unavailable", [], .ok "down", .error "x"⟩ = false ∧
    (jsonPOST (.parsed (jfields [("apiUrl", .str "u"), ("dataType", .str "json")]))
        (.response ⟨503, "Service Unavailable", [], .ok "down", .error "x"⟩)).resp
      = errorResponse "External API request failed." 502
          (some (.upstream 503 "Service Unavailable" (some "down"))) ∧
    (jsonPOST (.parsed (jfields [("apiUrl", .str "u"), ("dataType", .str "json")]))
        (.response ⟨401, "Unauthorized", [], .ok "no", .error "x"⟩)).resp
      = errorResponse "Authentication failed with external API." 401
          (some (.upstream 401 "Unauthorized" (some "no"))) := by
  refine ⟨by decide, ?_, ?_⟩
  · have h := C4_upstream_failure_mapping
      (.parsed (jfields [("apiUrl", .str "u"), ("dataType", .str "json")]))
      (fun _ => .valid) (fun _ _ => .ok .null) (fun _ _ => [])
      ⟨503, "Service Unavailable", [], .ok "down", .error "x"⟩ (by decide)
    have h2 := h.1 (by decide)
    rw [h2]
    decide
  · have h := C4_upstream_failure_mapping
      (.parsed (jfields [("apiUrl", .str "u"), ("dataType", .str "json")]))
      (fun _ => .valid) (fun _ _ => .ok .null) (fun _ _ => [])
      ⟨401, "Unauthorized", [], .ok "no", .error "x"⟩ (by decide)
    have h2 := h.1 (by decide)
    rw [h2]
    decide

theorem lookup_setKey (h : List (String × String)) (k v : String) :
    List.lookup k (setKey h k v) = some v := by
  induction h with
  | nil => simp [setKey, List.lookup]
  | cons p rest ih =>
    obtain ⟨k', v'⟩ := p
    by_cases hk : k' = k
    · subst hk
      simp [setKey, List.lookup]
    · have h1 : (k' == k) = false := beq_eq_false_iff_ne.mpr hk
      have h2 : (k == k') = false := beq_eq_false_iff_ne.mpr (fun he => hk he.symm)
      simp [setKey, h1, List.lookup, h2, ih]

theorem authHeadersStep_apiKey (short : Bool) (afs cfs : JsonFields)
    (h0 : List (String × String)) (key hn : String)
    (ht : lookupLast afs "type" = some (.str "apiKey"))
    (hc : lookupLast afs "credentials" = some (.obj cfs))
    (hk : lookupLast cfs "key" = some (.str key)) (hk2 : key ≠ "")
    (hh : lookupLast cfs "headerName" = some (.str hn)) (hh2 : hn ≠ "")
    (hp : lookupLast cfs "prefix" = none ∨ ∃ p, lookupLast cfs "prefix" = some (.str p)) :
    authHeadersStep short (some (.obj afs)) h0
      = .ok (setKey h0 hn (strValOf (lookupLast cfs "prefix") ++ key)) := by
  unfold authHeadersStep
  simp only [truthyOpt, truthy, getFieldO, getField, ht, hc, hk, hh]
  rcases hp with hp | ⟨p, hp⟩
  · simp [hp, hk2, hh2, jsToStringOpt, jsToString, strValOf]
  · by_cases hp2 : p = ""
    · subst hp2
      simp [hp, hk2, hh2, jsToStringOpt, jsToString, strValOf]
    · simp [hp, hk2, hh2, hp2, jsToStringOpt, jsToString, strValOf]

theorem authHeadersStep_bearer (short : Bool) (afs cfs : JsonFields)
    (h0 : List (String × String)) (tok : String)
    (ht : lookupLast afs "type" = some (.str "bearerToken"))
    (hc : lookupLast afs "credentials" = some (.obj cfs))
    (hk : lookupLast cfs "token" = some (.str tok)) (hk2 : tok ≠ "") :
    authHeadersStep short (some (.obj afs)) h0
      = .ok (setKey h0 "Authorization" ("Bearer " ++ tok)) := by
  unfold authHeadersStep
  simp only [truthyOpt, truthy, getFieldO, getField, ht, hc, hk]
  simp [hk2, jsToStringOpt, jsToString]

theorem authHeadersStep_basic (short : Bool) (afs cfs : JsonFields)
    (h0 : List (String × String)) (u pw : String)
    (ht : lookupLast afs "type" = some (.str "basicAuth"))
    (hc : lookupLast afs "credentials" = some (.obj cfs))
    (hu : lookupLast cfs "username" = some (.str u)) (hu2 : u ≠ "")
    (hpw : lookupLast cfs "password" = some (.str pw)) :
    authHeadersStep short (some (.obj afs)) h0
      = .ok (setKey h0 "Authorization" ("Basic " ++ bufferBase64 (u ++ ":" ++ pw))) := by
  unfold authHeadersStep
  simp only [truthyOpt, truthy, getFieldO, getField, ht, hc, hu, hpw]
  simp [hu2, jsToStringOpt, jsToString]

theorem bodyStepStrict_nobody (comma : Bool) (rb : Option JsonValue) (m : JsonValue)
    (hs : List (String × String)) (h : truthyOpt rb = false) :
    bodyStepStrict comma rb m hs = .ok none := by
  simp [bodyStepStrict, h]

/-- Claim C3: for every request with a well-formed authentication spec, the
outbound call's headers contain exactly the value computed from the
credentials: apiKey sets `headers[headerName] = prefix + key` with the
prefix defaulting to the empty string when absent; bearerToken sets
`Authorization: Bearer <token>`; basicAuth sets
`Authorization: Basic <base64(username:password)>`.  Stated for the json
and rdf entry points; the xml module's authentication block is the same
`authHeadersStep false` the json module runs. -/
theorem C3_auth_headers_exact (fields afs cfs : JsonFields) (fb : FetchOutcome)
    (rdfParse : String → RdfParseOpts → List QuadEvent)
    (key hn tok u pw : String)
    (h1 : truthyOpt (lookupLast fields "apiUrl") = true)
    (hauth : lookupLast fields "authentication" = some (.obj afs))
    (hcred : lookupLast afs "credentials" = some (.obj cfs)) :
    (lookupLast fields "dataType" = some (.str "json") →
      (lookupLast afs "type" = some (.str "apiKey") →
        lookupLast cfs "key" = some (.str key) → key ≠ "" →
        lookupLast cfs "headerName" = some (.str hn) → hn ≠ "" →
        (lookupLast cfs "prefix" = none ∨ ∃ p, lookupLast cfs "prefix" = some (.str p)) →
        ∃ c, (jsonPOST (.parsed fields) fb).fetchCalls = [c] ∧
          List.lookup hn c.headers = some (strValOf (lookupLast cfs "prefix") ++ key)) ∧
      (lookupLast afs "type" = some (.str "bearerToken") →
        lookupLast cfs "token" = some (.str tok) → tok ≠ "" →
        ∃ c, (jsonPOST (.parsed fields) fb).fetchCalls = [c] ∧
          List.lookup "Authorization" c.headers = some ("Bearer " ++ tok)) ∧
      (lookupLast afs "type" = some (.str "basicAuth") →
        lookupLast cfs "username" = some (.str u) → u ≠ "" →
        lookupLast cfs "password" = some (.str pw) →
        ∃ c, (jsonPOST (.parsed fields) fb).fetchCalls = [c] ∧
          List.lookup "Authorization" c.headers
            = some ("Basic " ++ bufferBase64 (u ++ ":" ++ pw)))) ∧
    (lookupLast fields "dataType" = some (.str "rdf") →
      truthyOpt (lookupLast fields "body") = false →
      (lookupLast afs "type" = some (.str "apiKey") →
        lookupLast cfs "key" = some (.str key) → key ≠ "" →
        lookupLast cfs "headerName" = some (.str hn) → hn ≠ "" →
        (lookupLast cfs "prefix" = none ∨ ∃ p, lookupLast cfs "prefix" = some (.str p)) →
        ∃ c, (rdfPOST rdfParse (.parsed fields) fb).fetchCalls = [c] ∧
          List.lookup hn c.headers = some (strValOf (lookupLast cfs "prefix") ++ key)) ∧
      (lookupLast afs "type" = some (.str "bearerToken") →
        lookupLast cfs "token" = some (.str tok) → tok ≠ "" →
        ∃ c, (rdfPOST rdfParse (.parsed fields) fb).fetchCalls = [c] ∧
          List.lookup "Authorization" c.headers = some ("Bearer " ++ tok)) ∧
      (lookupLast afs "type" = some (.str "basicAuth") →
        lookupLast cfs "username" = some (.str u) → u ≠ "" →
        lookupLast cfs "password" = some (.str pw) →
        ∃ c, (rdfPOST rdfParse (.parsed fields) fb).fetchCalls = [c] ∧
          List.lookup "Authorization" c.headers
            = some ("Basic " ++ bufferBase64 (u ++ ":" ++ pw)))) := by
  constructor
  · intro hdt
    refine ⟨fun ht hk hk2 hh hh2 hp => ?_, fun ht hk hk2 => ?_, fun ht hu hu2 hpw => ?_⟩
    · have ha : authHeadersStep false (lookupLast fields "authentication") (frontHeaders fields)
          = .ok (setKey (frontHeaders fields) hn (strValOf (lookupLast cfs "prefix") ++ key)) := by
        rw [hauth]
        exact authHeadersStep_apiKey false afs cfs (frontHeaders fields) key hn ht hcred hk hk2 hh hh2 hp
      rw [jsonPOST_run fields fb _ h1 hdt ha]
      exact ⟨_, rfl, lookup_setKey _ _ _⟩
    · have ha : authHeadersStep false (lookupLast fields "authentication") (frontHeaders fields)
          = .ok (setKey (frontHeaders fields) "Authorization" ("Bearer " ++ tok)) := by
        rw [hauth]
        exact authHeadersStep_bearer false afs cfs (frontHeaders fields) tok ht hcred hk hk2
      rw [jsonPOST_run fields fb _ h1 hdt ha]
      exact ⟨_, rfl, lookup_setKey _ _ _⟩
    · have ha : authHeadersStep false (lookupLast fields "authentication") (frontHeaders fields)
          = .ok (setKey (frontHeaders fields) "Authorization" ("Basic " ++ bufferBase64 (u ++ ":" ++ pw))) := by
        rw [hauth]
        exact authHeadersStep_basic false afs cfs (frontHeaders fields) u pw ht hcred hu hu2 hpw
      rw [jsonPOST_run fields fb _ h1 hdt ha]
      exact ⟨_, rfl, lookup_setKey _ _ _⟩
  · intro hdt hnb
    refine ⟨fun ht hk hk2 hh hh2 hp => ?_, fun ht hk hk2 => ?_, fun ht hu hu2 hpw => ?_⟩
    · have ha : authHeadersStep true (lookupLast fields "authentication") (frontHeaders fields)
          = .ok (setKey (frontHeaders fields) hn (strValOf (lookupLast cfs "prefix") ++ key)) := by
        rw [hauth]
        exact authHeadersStep_apiKey true afs cfs (frontHeaders fields) key hn ht hcred hk hk2 hh hh2 hp
      rw [rdfPOST_run rdfParse fields fb _ none h1 hdt ha
        (bodyStepStrict_nobody false _ _ _ hnb)]
      exact ⟨_, rfl, lookup_setKey _ _ _⟩
    · have ha : authHeadersStep true (lookupLast fields "authentication") (frontHeaders fields)
          = .ok (setKey (frontHeaders fields) "Authorization" ("Bearer " ++ tok)) := by
        rw [hauth]
        exact authHeadersStep_bearer true afs cfs (frontHeaders fields) tok ht hcred hk hk2
      rw [rdfPOST_run rdfParse fields fb _ none h1 hdt ha
        (bodyStepStrict_nobody false _ _ _ hnb)]
      exact ⟨_, rfl, lookup_setKey _ _ _⟩
    · have ha : authHeadersStep true (lookupLast fields "authentication") (frontHeaders fields)
          = .ok (setKey (frontHeaders fields) "Authorization" ("Basic " ++ bufferBase64 (u ++ ":" ++ pw))) := by
        rw [hauth]
        exact authHeadersStep_basic true afs cfs (frontHeaders fields) u pw ht hcred hu hu2 hpw
      rw [rdfPOST_run rdfParse fields fb _ none h1 hdt ha
        (bodyStepStrict_nobody false _ _ _ hnb)]
      exact ⟨_, rfl, lookup_setKey _ _ _⟩

/-- Witness for C3: basicAuth with `user`/`pass` yields
`Authorization: Basic dXNlcjpwYXNz` on the outbound call. -/
theorem C3_witness :
    bufferBase64 ("user" ++ ":" ++ "pass") = "dXNlcjpwYXNz" ∧
    ∃ c, (jsonPOST (.parsed (jfields [("apiUrl", .str "u"), ("dataType", .str "json"),
        ("authentication", .obj (jfields [("type", .str "basicAuth"),
          ("credentials", .obj (jfields [("username", .str "user"),
            ("password", .str "pass")]))]))]))
        (.networkError "n")).fetchCalls = [c] ∧
      List.lookup "Authorization" c.headers = some ("Basic " ++ bufferBase64 ("user" ++ ":" ++ "pass")) := by
  refine ⟨by decide, ?_⟩
  have h := C3_auth_headers_exact
    (jfields [("apiUrl", .str "u"), ("dataType", .str "json"),
      ("authentication", .obj (jfields [("type", .str "basicAuth"),
        ("credentials", .obj (jfields [("username", .str "user"),
          ("password", .str "pass")]))]))])
    (jfields [("type", .str "basicAuth"),
      ("credentials", .obj (jfields [("username", .str "user"), ("password", .str "pass")]))])
    (jfields [("username", .str "user"), ("password", .str "pass")])
    (.networkError "n") (fun _ _ => []) "k" "h" "t" "user" "pass"
    (by decide) (by decide) (by decide)
  exact (h.1 (by decide)).2.2 (by decide) (by decide) (by decide) (by decide)

/-- Claim C9: a basicAuth spec with a non-empty username and an
empty-string password is accepted as valid (the password is checked for
presence, not truthiness): the request proceeds to the outbound call with
`Authorization: Basic <base64(username ++ ":")>` rather than being
rejected with a validation error.  Stated for the json and rdf entry
points (the xml module runs the same authentication block). -/
theorem C9_empty_password_accepted (fields afs cfs : JsonFields) (fb : FetchOutcome)
    (rdfParse : String → RdfParseOpts → List QuadEvent) (u : String)
    (h1 : truthyOpt (lookupLast fields "apiUrl") = true)
    (hauth : lookupLast fields "authentication" = some (.obj afs))
    (ht : lookupLast afs "type" = some (.str "basicAuth"))
    (hcred : lookupLast afs "credentials" = some (.obj cfs))
    (hu : lookupLast cfs "username" = some (.str u)) (hu2 : u ≠ "")
    (hpw : lookupLast cfs "password" = some (.str "")) :
    (u ++ ":" ++ "" = u ++ ":") ∧
    (lookupLast fields "dataType" = some (.str "json") →
      ∃ c, (jsonPOST (.parsed fields) fb).fetchCalls = [c] ∧
        List.lookup "Authorization" c.headers
          = some ("Basic " ++ bufferBase64 (u ++ ":" ++ ""))) ∧
    (lookupLast fields "dataType" = some (.str "rdf") →
      truthyOpt (lookupLast fields "body") = false →
      ∃ c, (rdfPOST rdfParse (.parsed fields) fb).fetchCalls = [c] ∧
        List.lookup "Authorization" c.headers
          = some ("Basic " ++ bufferBase64 (u ++ ":" ++ ""))) := by
  refine ⟨by simp, fun hdt => ?_, fun hdt hnb => ?_⟩
  · have ha : authHeadersStep false (lookupLast fields "authentication") (frontHeaders fields)
        = .ok (setKey (frontHeaders fields) "Authorization"
            ("Basic " ++ bufferBase64 (u ++ ":" ++ ""))) := by
      rw [hauth]
      exact authHeadersStep_basic false afs cfs (frontHeaders fields) u "" ht hcred hu hu2 hpw
    rw [jsonPOST_run fields fb _ h1 hdt ha]
    exact ⟨_, rfl, lookup_setKey _ _ _⟩
  · have ha : authHeadersStep true (lookupLast fields "authentication") (frontHeaders fields)
        = .ok (setKey (frontHeaders fields) "Authorization"
            ("Basic " ++ bufferBase64 (u ++ ":" ++ ""))) := by
      rw [hauth]
      exact authHeadersStep_basic true afs cfs (frontHeaders fields) u "" ht hcred hu hu2 hpw
    rw [rdfPOST_run rdfParse fields fb _ none h1 hdt ha
      (bodyStepStrict_nobody false _ _ _ hnb)]
    exact ⟨_, rfl, lookup_setKey _ _ _⟩

/-- Witness for C9: username `user` with empty password reaches the
outbound call carrying `Authorization: Basic dXNlcjo=`. -/
theorem C9_witness :
    bufferBase64 ("user" ++ ":" ++ "") = "dXNlcjo=" ∧
    ∃ c, (jsonPOST (.parsed (jfields [("apiUrl", .str "u"), ("dataType", .str "json"),
        ("authentication", .obj (jfields [("type", .str "basicAuth"),
          ("credentials", .obj (jfields [("username", .str "user"),
            ("password", .str "")]))]))]))
        (.networkError "n")).fetchCalls = [c] ∧
      List.lookup "Authorization" c.headers
        = some ("Basic " ++ bufferBase64 ("user" ++ ":" ++ "")) := by
  refine ⟨by decide, ?_⟩
  have h := C9_empty_password_accepted
    (jfields [("apiUrl", .str "u"), ("dataType", .str "json"),
      ("authentication", .obj (jfields [("type", .str "basicAuth"),
        ("credentials", .obj (jfields [("username", .str "user"),
          ("password", .str "")]))]))])
    (jfields [("type", .str "basicAuth"),
      ("credentials", .obj (jfields [("username", .str "user"), ("password", .str "")]))])
    (jfields [("username", .str "user"), ("password", .str "")])
    (.networkError "n") (fun _ _ => []) "user"
    (by decide) (by decide) (by decide) (by decide) (by decide) (by decide) (by decide)
  exact h.2.1 (by decide)

theorem jsonPOST_fetch_shape (fields : JsonFields) (fb : FetchOutcome) :
    (jsonPOST (.parsed fields) fb).fetchCalls = [] ∨
    ∃ hdrs, authHeadersStep false (lookupLast fields "authentication") (frontHeaders fields)
        = .ok hdrs ∧
      (jsonPOST (.parsed fields) fb).fetchCalls
        = [⟨reqUrl fields, reqMethod fields, hdrs,
            bodyStepJson (lookupLast fields "body") (reqMethod fields)⟩] := by
  simp only [jsonPOST]
  cases hv : validateStep "json" fields with
  | some r => left; simp [reject]
  | none =>
    cases ha : authHeadersStep false (lookupLast fields "authentication") (frontHeaders fields) with
    | error r => left; simp [reject]
    | ok hdrs => right; exact ⟨hdrs, rfl, by simp [called]⟩

theorem xmlPOST_fetch_shape (validate : String → XmlValidation)
    (parseXml : JsonValue → String → Except String JsonValue)
    (fields : JsonFields) (fb : FetchOutcome) :
    (xmlPOST validate parseXml (.parsed fields) fb).fetchCalls = [] ∨
    ∃ hdrs body, authHeadersStep false (lookupLast fields "authentication") (frontHeaders fields)
        = .ok hdrs ∧
      bodyStepStrict true (lookupLast fields "body") (reqMethod fields) hdrs = .ok body ∧
      (xmlPOST validate parseXml (.parsed fields) fb).fetchCalls
        = [⟨reqUrl fields, reqMethod fields, hdrs, body⟩] := by
  simp only [xmlPOST]
  cases hv : validateStep "xml" fields with
  | some r => left; simp [reject]
  | none =>
    cases ha : authHeadersStep false (lookupLast fields "authentication") (frontHeaders fields) with
    | error r => left; simp [reject]
    | ok hdrs =>
      cases hb : bodyStepStrict true (lookupLast fields "body") (reqMethod fields) hdrs with
      | error r => left; simp [hb, reject]
      | ok body => right; exact ⟨hdrs, body, rfl, hb, by simp [hb, called]⟩

theorem rdfPOST_fetch_shape (rdfParse : String → RdfParseOpts → List QuadEvent)
    (fields : JsonFields) (fb : FetchOutcome) :
    (rdfPOST rdfParse (.parsed fields) fb).fetchCalls = [] ∨
    ∃ hdrs body, authHeadersStep true (lookupLast fields "authentication") (frontHeaders fields)
        = .ok hdrs ∧
      bodyStepStrict false (lookupLast fields "body") (reqMethod fields) hdrs = .ok body ∧
      (rdfPOST rdfParse (.parsed fields) fb).fetchCalls
        = [⟨reqUrl fields, reqMethod fields, hdrs, body⟩] := by
  simp only [rdfPOST, rdfParserInstanceAvailable, actualUsableArrayifyStreamAvailable]
  cases hv : validateStep "rdf" fields with
  | some r => left; simp [reject]
  | none =>
    cases ha : authHeadersStep true (lookupLast fields "authentication") (frontHeaders fields) with
    | error r => left; simp [reject]
    | ok hdrs =>
      cases hb : bodyStepStrict false (lookupLast fields "body") (reqMethod fields) hdrs with
      | error r => left; simp [hb, reject]
      | ok body => right; exact ⟨hdrs, body, rfl, hb, by simp [hb, called]⟩

theorem bodyStepJson_gating (rb : Option JsonValue) (m : JsonValue) :
    (bodyStepJson rb m).isSome = (truthyOpt rb && isBodyVerb m) := by
  unfold bodyStepJson
  by_cases h : (truthyOpt rb && isBodyVerb m) = true
  · simp [h]
  · simp only [Bool.not_eq_true] at h
    simp [h]

theorem bodyStepStrict_ok_some (comma : Bool) (rb : Option JsonValue) (m : JsonValue)
    (hs : List (String × String)) (s : String)
    (h : bodyStepStrict comma rb m hs = .ok (some s)) :
    (truthyOpt rb && isBodyVerb m) = true := by
  unfold bodyStepStrict at h
  by_cases hg : (truthyOpt rb && isBodyVerb m) = true
  · exact hg
  · simp only [Bool.not_eq_true] at hg
    simp [hg] at h

theorem bodyStepJson_nogate (rb : Option JsonValue) (m : JsonValue)
    (h : (truthyOpt rb && isBodyVerb m) = false) :
    bodyStepJson rb m = none := by
  simp [bodyStepJson, h]

theorem bodyStepStrict_nogate (comma : Bool) (rb : Option JsonValue) (m : JsonValue)
    (hs : List (String × String))
    (h : (truthyOpt rb && isBodyVerb m) = false) :
    bodyStepStrict comma rb m hs = .ok none := by
  simp [bodyStepStrict, h]

/-- Claim C10: the supplied outbound body is attached to the outbound call
only when the method is exactly `"POST"`, `"PUT"` or `"PATCH"` and the body
value is truthy; for any other method or a falsy body value the body is
silently ignored — the outbound call is made without a body and no error is
reported — at each of the three entry points. -/
theorem C10_body_gating (fields : JsonFields) (fb : FetchOutcome)
    (validate : String → XmlValidation)
    (parseXml : JsonValue → String → Except String JsonValue)
    (rdfParse : String → RdfParseOpts → List QuadEvent) :
    (∀ c, (jsonPOST (.parsed fields) fb).fetchCalls = [c] → c.body.isSome = true →
      (truthyOpt (lookupLast fields "body") && isBodyVerb (reqMethod fields)) = true) ∧
    (∀ c, (xmlPOST validate parseXml (.parsed fields) fb).fetchCalls = [c] →
      c.body.isSome = true →
      (truthyOpt (lookupLast fields "body") && isBodyVerb (reqMethod fields)) = true) ∧
    (∀ c, (rdfPOST rdfParse (.parsed fields) fb).fetchCalls = [c] → c.body.isSome = true →
      (truthyOpt (lookupLast fields "body") && isBodyVerb (reqMethod fields)) = true) ∧
    ((truthyOpt (lookupLast fields "body") && isBodyVerb (reqMethod fields)) = false →
      truthyOpt (lookupLast fields "apiUrl") = true →
      (lookupLast fields "dataType" = some (.str "json") →
        ∀ hdrs, authHeadersStep false (lookupLast fields "authentication") (frontHeaders fields)
            = .ok hdrs →
          (jsonPOST (.parsed fields) fb).fetchCalls
            = [⟨reqUrl fields, reqMethod fields, hdrs, none⟩]) ∧
      (lookupLast fields "dataType" = some (.str "xml") →
        ∀ hdrs, authHeadersStep false (lookupLast fields "authentication") (frontHeaders fields)
            = .ok hdrs →
          (xmlPOST validate parseXml (.parsed fields) fb).fetchCalls
            = [⟨reqUrl fields, reqMethod fields, hdrs, none⟩]) ∧
      (lookupLast fields "dataType" = some (.str "rdf") →
        ∀ hdrs, authHeadersStep true (lookupLast fields "authentication") (frontHeaders fields)
            = .ok hdrs →
          (rdfPOST rdfParse (.parsed fields) fb).fetchCalls
            = [⟨reqUrl fields, reqMethod fields, hdrs, none⟩])) := by
  refine ⟨?_, ?_, ?_, ?_⟩
  · intro c hc hsome
    rcases jsonPOST_fetch_shape fields fb with h | ⟨hdrs, ha, h⟩
    · rw [h] at hc
      simp at hc
    · rw [h] at hc
      cases hc
      rw [bodyStepJson_gating] at hsome
      exact hsome
  · intro c hc hsome
    rcases xmlPOST_fetch_shape validate parseXml fields fb with h | ⟨hdrs, body, ha, hb, h⟩
    · rw [h] at hc
      simp at hc
    · rw [h] at hc
      cases hc
      cases body with
      | none => simp at hsome
      | some s => exact bodyStepStrict_ok_some true _ _ _ s hb
  · intro c hc hsome
    rcases rdfPOST_fetch_shape rdfParse fields fb with h | ⟨hdrs, body, ha, hb, h⟩
    · rw [h] at hc
      simp at hc
    · rw [h] at hc
      cases hc
      cases body with
      | none => simp at hsome
      | some s => exact bodyStepStrict_ok_some false _ _ _ s hb
  · intro hg h1
    refine ⟨fun hdt hdrs ha => ?_, fun hdt hdrs ha => ?_, fun hdt hdrs ha => ?_⟩
    · rw [jsonPOST_run fields fb hdrs h1 hdt ha, bodyStepJson_nogate _ _ hg]
      simp [called]
    · rw [xmlPOST_run validate parseXml fields fb hdrs none h1 hdt ha
        (bodyStepStrict_nogate true _ _ _ hg)]
      simp [called]
    · rw [rdfPOST_run rdfParse fields fb hdrs none h1 hdt ha
        (bodyStepStrict_nogate false _ _ _ hg)]
      simp [called]

/-- Witness for C10: a GET with a body present makes the outbound call with
no body attached and reports no error. -/
theorem C10_witness :
    (truthyOpt (lookupLast (jfields [("apiUrl", .str "u"), ("dataType", .str "json"),
        ("method", .str "GET"), ("body", .str "payload")]) "body")
      && isBodyVerb (reqMethod (jfields [("apiUrl", .str "u"), ("dataType", .str "json"),
        ("method", .str "GET"), ("body", .str "payload")]))) = false ∧
    (jsonPOST (.parsed (jfields [("apiUrl", .str "u"), ("dataType", .str "json"),
        ("method", .str "GET"), ("body", .str "payload")])) (.networkError "n")).fetchCalls
      = [⟨"u", .str "GET", [("Content-Type", "application/json")], none⟩] := by
  refine ⟨by decide, ?_⟩
  have h := C10_body_gating (jfields [("apiUrl", .str "u"), ("dataType", .str "json"),
      ("method", .str "GET"), ("body", .str "payload")]) (.networkError "n")
    (fun _ => .valid) (fun _ _ => .ok .null) (fun _ _ => [])
  exact (h.2.2.2 (by decide) (by decide)).1 (by decide)
    [("Content-Type", "application/json")] (by decide)

theorem bodyStepJson_gate_val (rb : Option JsonValue) (m : JsonValue)
    (hg : (truthyOpt rb && isBodyVerb m) = true) :
    bodyStepJson rb m
      = some (if isStrVal rb then strValOf rb else jsonStringify (rb.getD .null)) := by
  simp [bodyStepJson, hg]

theorem bodyStepStrict_str (comma : Bool) (rb : Option JsonValue) (m : JsonValue)
    (hs : List (String × String)) (hg : (truthyOpt rb && isBodyVerb m) = true)
    (hstr : isStrVal rb = true) :
    bodyStepStrict comma rb m hs = .ok (some (strValOf rb)) := by
  simp [bodyStepStrict, hg, hstr]

theorem bodyStepStrict_json_ct (comma : Bool) (rb : Option JsonValue) (m : JsonValue)
    (hs : List (String × String)) (hg : (truthyOpt rb && isBodyVerb m) = true)
    (hstr : isStrVal rb = false) (hct : ctIncludesJson hs = true) :
    bodyStepStrict comma rb m hs = .ok (some (jsonStringify (rb.getD .null))) := by
  simp [bodyStepStrict, hg, hstr, hct]

theorem bodyStepStrict_ambiguous (comma : Bool) (rb : Option JsonValue) (m : JsonValue)
    (hs : List (String × String)) (hg : (truthyOpt rb && isBodyVerb m) = true)
    (hstr : isStrVal rb = false) (hct : ctIncludesJson hs = false) :
    bodyStepStrict comma rb m hs
      = .error (errorResponse
          (if comma then
            "Request body must be a string for non-JSON content types, or if 'Content-Type' is not 'application/json'."
           else
            "Request body must be a string for non-JSON content types or if 'Content-Type' is not 'application/json'.")
          400 none) := by
  simp [bodyStepStrict, hg, hstr, hct]

theorem xmlPOST_bodyerr (validate : String → XmlValidation)
    (parseXml : JsonValue → String → Except String JsonValue)
    (fields : JsonFields) (fb : FetchOutcome) (hdrs : List (String × String)) (r : Resp)
    (h1 : truthyOpt (lookupLast fields "apiUrl") = true)
    (h3 : lookupLast fields "dataType" = some (.str "xml"))
    (ha : authHeadersStep false (lookupLast fields "authentication") (frontHeaders fields)
      = .ok hdrs)
    (hb : bodyStepStrict true (lookupLast fields "body") (reqMethod fields) hdrs = .error r) :
    xmlPOST validate parseXml (.parsed fields) fb = reject r := by
  simp only [xmlPOST, validateStep, h1, h3]
  rw [ha]
  simp only [truthyOpt, truthy]
  simp only [show ((some (JsonValue.str "xml") ≠ some (JsonValue.str "xml")) = False) by simp]
  simp only [if_false, Bool.false_eq_true, ite_false, ite_true]
  rw [hb]
  simp

theorem rdfPOST_bodyerr (rdfParse : String → RdfParseOpts → List QuadEvent)
    (fields : JsonFields) (fb : FetchOutcome) (hdrs : List (String × String)) (r : Resp)
    (h1 : truthyOpt (lookupLast fields "apiUrl") = true)
    (h3 : lookupLast fields "dataType" = some (.str "rdf"))
    (ha : authHeadersStep true (lookupLast fields "authentication") (frontHeaders fields)
      = .ok hdrs)
    (hb : bodyStepStrict false (lookupLast fields "body") (reqMethod fields) hdrs = .error r) :
    rdfPOST rdfParse (.parsed fields) fb = reject r := by
  simp only [rdfPOST, validateStep, h1, h3]
  simp only [rdfParserInstanceAvailable, actualUsableArrayifyStreamAvailable]
  rw [ha]
  simp only [truthyOpt, truthy]
  simp only [show ((some (JsonValue.str "rdf") ≠ some (JsonValue.str "rdf")) = False) by simp]
  simp only [if_false, Bool.false_eq_true, ite_false, ite_true]
  rw [hb]
  simp

/-- Counterexample to claim C5 as stated: at the json entry point a
non-string body under a non-JSON outbound `Content-Type` is not rejected as
ambiguous — it is JSON-serialized and the outbound call is made.  (The
conditional serialization the claim describes exists only in the xml and
rdf modules.) -/
theorem C5_counterexample :
    (jsonPOST (.parsed (jfields [("apiUrl", .str "u"), ("dataType", .str "json"),
        ("method", .str "POST"),
        ("headers", .obj (jfields [("Content-Type", .str "text/plain")])),
        ("body", .obj (jfields [("a", .num 1)]))]))
      (.networkError "n")).fetchCalls
      = [⟨"u", .str "POST", [("Content-Type", "text/plain")],
          some "\x7b\"a\":1\x7d"⟩] ∧
    (jsonPOST (.parsed (jfields [("apiUrl", .str "u"), ("dataType", .str "json"),
        ("method", .str "POST"),
        ("headers", .obj (jfields [("Content-Type", .str "text/plain")])),
        ("body", .obj (jfields [("a", .num 1)]))]))
      (.networkError "n")).resp.status = 502 := by
  decide

/-- Claim C5 (amended): when a body is present and the method is a
body-carrying verb, a string body is passed to the outbound call verbatim
at every entry point; at the xml and rdf entry points a non-string body is
JSON-serialized only when the effective outbound `Content-Type` header
(the case-sensitive `'Content-Type'` key) indicates JSON and otherwise the
request is rejected as ambiguous with a 400 error before any outbound
call; at the json entry point a non-string body is always JSON-serialized,
regardless of the content type. -/
theorem C5_body_serialization (fields : JsonFields) (fb : FetchOutcome)
    (validate : String → XmlValidation)
    (parseXml : JsonValue → String → Except String JsonValue)
    (rdfParse : String → RdfParseOpts → List QuadEvent) (hdrs : List (String × String))
    (h1 : truthyOpt (lookupLast fields "apiUrl") = true)
    (hg : (truthyOpt (lookupLast fields "body") && isBodyVerb (reqMethod fields)) = true) :
    (lookupLast fields "dataType" = some (.str "json") →
      authHeadersStep false (lookupLast fields "authentication") (frontHeaders fields)
          = .ok hdrs →
      (jsonPOST (.parsed fields) fb).fetchCalls
        = [⟨reqUrl fields, reqMethod fields, hdrs,
            some (if isStrVal (lookupLast fields "body") then strValOf (lookupLast fields "body")
              else jsonStringify ((lookupLast fields "body").getD .null))⟩]) ∧
    (lookupLast fields "dataType" = some (.str "xml") →
      authHeadersStep false (lookupLast fields "authentication") (frontHeaders fields)
          = .ok hdrs →
      ((isStrVal (lookupLast fields "body") = true →
        (xmlPOST validate parseXml (.parsed fields) fb).fetchCalls
          = [⟨reqUrl fields, reqMethod fields, hdrs,
              some (strValOf (lookupLast fields "body"))⟩]) ∧
       (isStrVal (lookupLast fields "body") = false → ctIncludesJson hdrs = true →
        (xmlPOST validate parseXml (.parsed fields) fb).fetchCalls
          = [⟨reqUrl fields, reqMethod fields, hdrs,
              some (jsonStringify ((lookupLast fields "body").getD .null))⟩]) ∧
       (isStrVal (lookupLast fields "body") = false → ctIncludesJson hdrs = false →
        (xmlPOST validate parseXml (.parsed fields) fb).resp.status = 400 ∧
        (xmlPOST validate parseXml (.parsed fields) fb).fetchCalls = [] ∧
        respError (xmlPOST validate parseXml (.parsed fields) fb)
          = some "Request body must be a string for non-JSON content types, or if 'Content-Type' is not 'application/json'."))) ∧
    (lookupLast fields "dataType" = some (.str "rdf") →
      authHeadersStep true (lookupLast fields "authentication") (frontHeaders fields)
          = .ok hdrs →
      ((isStrVal (lookupLast fields "body") = true →
        (rdfPOST rdfParse (.parsed fields) fb).fetchCalls
          = [⟨reqUrl fields, reqMethod fields, hdrs,
              some (strValOf (lookupLast fields "body"))⟩]) ∧
       (isStrVal (lookupLast fields "body") = false → ctIncludesJson hdrs = true →
        (rdfPOST rdfParse (.parsed fields) fb).fetchCalls
          = [⟨reqUrl fields, reqMethod fields, hdrs,
              some (jsonStringify ((lookupLast fields "body").getD .null))⟩]) ∧
       (isStrVal (lookupLast fields "body") = false → ctIncludesJson hdrs = false →
        (rdfPOST rdfParse (.parsed fields) fb).resp.status = 400 ∧
        (rdfPOST rdfParse (.parsed fields) fb).fetchCalls = [] ∧
        respError (rdfPOST rdfParse (.parsed fields) fb)
          = some "Request body must be a string for non-JSON content types or if 'Content-Type' is not 'application/json'."))) := by
  refine ⟨fun hdt ha => ?_, fun hdt ha => ?_, fun hdt ha => ?_⟩
  · rw [jsonPOST_run fields fb hdrs h1 hdt ha, bodyStepJson_gate_val _ _ hg]
    simp [called]
  · refine ⟨fun hstr => ?_, fun hstr hct => ?_, fun hstr hct => ?_⟩
    · rw [xmlPOST_run validate parseXml fields fb hdrs _ h1 hdt ha
        (bodyStepStrict_str true _ _ _ hg hstr)]
      simp [called]
    · rw [xmlPOST_run validate parseXml fields fb hdrs _ h1 hdt ha
        (bodyStepStrict_json_ct true _ _ _ hg hstr hct)]
      simp [called]
    · rw [xmlPOST_bodyerr validate parseXml fields fb hdrs _ h1 hdt ha
        (bodyStepStrict_ambiguous true _ _ _ hg hstr hct)]
      simp [reject, errorResponse, respError]
  · refine ⟨fun hstr => ?_, fun hstr hct => ?_, fun hstr hct => ?_⟩
    · rw [rdfPOST_run rdfParse fields fb hdrs _ h1 hdt ha
        (bodyStepStrict_str false _ _ _ hg hstr)]
      simp [called]
    · rw [rdfPOST_run rdfParse fields fb hdrs _ h1 hdt ha
        (bodyStepStrict_json_ct false _ _ _ hg hstr hct)]
      simp [called]
    · rw [rdfPOST_bodyerr rdfParse fields fb hdrs _ h1 hdt ha
        (bodyStepStrict_ambiguous false _ _ _ hg hstr hct)]
      simp [reject, errorResponse, respError]

/-- Witness for the amended C5: at the xml entry point a POST with an
object body and a `text/xml` content type is rejected as ambiguous with a
400 before any outbound call. -/
theorem C5_witness :
    (truthyOpt (lookupLast (jfields [("apiUrl", .str "u"), ("dataType", .str "xml"),
        ("method", .str "POST"),
        ("headers", .obj (jfields [("Content-Type", .str "text/xml")])),
        ("body", .obj (jfields [("a", .num 1)]))]) "body")
      && isBodyVerb (reqMethod (jfields [("apiUrl", .str "u"), ("dataType", .str "xml"),
        ("method", .str "POST"),
        ("headers", .obj (jfields [("Content-Type", .str "text/xml")])),
        ("body", .obj (jfields [("a", .num 1)]))]))) = true ∧
    (xmlPOST (fun _ => .valid) (fun _ _ => .ok .null)
      (.parsed (jfields [("apiUrl", .str "u"), ("dataType", .str "xml"),
        ("method", .str "POST"),
        ("headers", .obj (jfields [("Content-Type", .str "text/xml")])),
        ("body", .obj (jfields [("a", .num 1)]))]))
      (.networkError "n")).resp.status = 400 ∧
    (xmlPOST (fun _ => .valid) (fun _ _ => .ok .null)
      (.parsed (jfields [("apiUrl", .str "u"), ("dataType", .str "xml"),
        ("method", .str "POST"),
        ("headers", .obj (jfields [("Content-Type", .str "text/xml")])),
        ("body", .obj (jfields [("a", .num 1)]))]))
      (.networkError "n")).fetchCalls = [] := by
  have h := C5_body_serialization (jfields [("apiUrl", .str "u"), ("dataType", .str "xml"),
      ("method", .str "POST"),
      ("headers", .obj (jfields [("Content-Type", .str "text/xml")])),
      ("body", .obj (jfields [("a", .num 1)]))]) (.networkError "n")
    (fun _ => .valid) (fun _ _ => .ok .null) (fun _ _ => [])
    [("Content-Type", "text/xml")] (by decide) (by decide)
  have h2 := (h.2.1 (by decide) (by decide)).2.2 (by decide) (by decide)
  exact ⟨by decide, h2.1, h2.2.1⟩

theorem called_upstream_okPass (c : FetchCall) (onOk : UpstreamResponse → PostFetch)
    (r : UpstreamResponse) (hok : upstreamOk r = true) :
    called c (handleUpstream (.response r) onOk) = called c (onOk r) := by
  simp [handleUpstream, hok]

theorem rdfParsePhase_obs (rdfParse : String → RdfParseOpts → List QuadEvent)
    (rdfOptions : JsonValue) (r : UpstreamResponse) (rdfText : String)
    (htext : r.textResult = .ok rdfText) :
    (rdfParsePhase rdfParse rdfOptions r).rdfParseCalls
      = [⟨resolvedContentType rdfOptions r.headers, getField rdfOptions "baseIRI"⟩] ∧
    (rdfParsePhase rdfParse rdfOptions r).warnings
      = (if resolvedContentType rdfOptions r.headers = none then 1 else 0) := by
  cases hso : streamOutcome (rdfParse rdfText
      ⟨resolvedContentType rdfOptions r.headers, getField rdfOptions "baseIRI"⟩) with
  | error e => constructor <;> simp [rdfParsePhase, htext, hso]
  | ok qs => constructor <;> simp [rdfParsePhase, htext, hso]

theorem resolvedContentType_override (rdfOptions : JsonValue)
    (respHeaders : List (String × String)) (v : JsonValue)
    (h : getField rdfOptions "contentType" = some v) (hv : truthy v = true) :
    resolvedContentType rdfOptions respHeaders = some v := by
  simp [resolvedContentType, h, hv]

theorem resolvedContentType_header (rdfOptions : JsonValue)
    (respHeaders : List (String × String)) (s : String)
    (h : truthyOpt (getField rdfOptions "contentType") = false)
    (hs : headersGet respHeaders "content-type" = some s) (hs2 : s ≠ "") :
    resolvedContentType rdfOptions respHeaders = some (.str s) := by
  unfold resolvedContentType
  cases hc : getField rdfOptions "contentType" with
  | none => simp [hs, hs2, truthy]
  | some v =>
    rw [hc] at h
    simp only [truthyOpt] at h
    simp [h, hs, hs2]

theorem resolvedContentType_none (rdfOptions : JsonValue)
    (respHeaders : List (String × String))
    (h : truthyOpt (getField rdfOptions "contentType") = false)
    (hs : headersGet respHeaders "content-type" = none
      ∨ headersGet respHeaders "content-type" = some "") :
    resolvedContentType rdfOptions respHeaders = none := by
  unfold resolvedContentType
  cases hc : getField rdfOptions "contentType" with
  | none => rcases hs with hs | hs <;> simp [hs, truthy]
  | some v =>
    rw [hc] at h
    simp only [truthyOpt] at h
    rcases hs with hs | hs <;> simp [h, hs]

/-- Counterexample to claim C6 as stated: with the override present in the
request body but equal to the empty string (`rdf: {contentType: ""}`) and an
upstream `Content-Type: text/turtle` header, the parser is invoked with the
upstream header's value, not the present override — the code tests the
override for truthiness, not presence. -/
theorem C6_counterexample :
    getField (.obj (jfields [("contentType", .str "")])) "contentType"
      = some (.str "") ∧
    (rdfPOST (fun _ _ => [])
      (.parsed (jfields [("apiUrl", .str "u"), ("dataType", .str "rdf"),
        ("rdf", .obj (jfields [("contentType", .str "")]))]))
      (.response ⟨200, "OK", [("Content-Type", "text/turtle")], .ok "t", .error "x"⟩)).rdfParseCalls
      = [⟨some (.str "text/turtle"), none⟩] := by
  decide

/-- Claim C6 (amended): for every rdf request that reaches the parse stage,
the parser is invoked exactly once, with the content type resolved in this
precedence — (1) the `rdf.contentType` override when truthy, (2) the
upstream response's `Content-Type` header when present and non-empty,
(3) nothing (auto-detection) — and a warning is emitted exactly when the
resolution is empty. -/
theorem C6_content_type_resolution (fields : JsonFields)
    (rdfParse : String → RdfParseOpts → List QuadEvent)
    (r : UpstreamResponse) (rdfText : String)
    (hdrs : List (String × String)) (body : Option String)
    (h1 : truthyOpt (lookupLast fields "apiUrl") = true)
    (hdt : lookupLast fields "dataType" = some (.str "rdf"))
    (ha : authHeadersStep true (lookupLast fields "authentication") (frontHeaders fields)
      = .ok hdrs)
    (hb : bodyStepStrict false (lookupLast fields "body") (reqMethod fields) hdrs = .ok body)
    (hok : upstreamOk r = true) (htext : r.textResult = .ok rdfText) :
    (rdfPOST rdfParse (.parsed fields) (.response r)).rdfParseCalls
      = [⟨resolvedContentType ((lookupLast fields "rdf").getD (.obj .nil)) r.headers,
          getField ((lookupLast fields "rdf").getD (.obj .nil)) "baseIRI"⟩] ∧
    (rdfPOST rdfParse (.parsed fields) (.response r)).warnings
      = (if resolvedContentType ((lookupLast fields "rdf").getD (.obj .nil)) r.headers = none
         then 1 else 0) ∧
    (∀ v, getField ((lookupLast fields "rdf").getD (.obj .nil)) "contentType" = some v →
      truthy v = true →
      resolvedContentType ((lookupLast fields "rdf").getD (.obj .nil)) r.headers = some v) ∧
    (truthyOpt (getField ((lookupLast fields "rdf").getD (.obj .nil)) "contentType") = false →
      ∀ s, headersGet r.headers "content-type" = some s → s ≠ "" →
      resolvedContentType ((lookupLast fields "rdf").getD (.obj .nil)) r.headers
        = some (.str s)) ∧
    (truthyOpt (getField ((lookupLast fields "rdf").getD (.obj .nil)) "contentType") = false →
      (headersGet r.headers "content-type" = none
        ∨ headersGet r.headers "content-type" = some "") →
      resolvedContentType ((lookupLast fields "rdf").getD (.obj .nil)) r.headers = none) := by
  have hrun := rdfPOST_run rdfParse fields (.response r) hdrs body h1 hdt ha hb
  rw [hrun, called_upstream_okPass _ _ r hok]
  obtain ⟨hcalls, hwarn⟩ := rdfParsePhase_obs rdfParse ((lookupLast fields "rdf").getD (.obj .nil))
    r rdfText htext
  refine ⟨by simp [called, hcalls], by simp [called, hwarn], ?_, ?_, ?_⟩
  · exact fun v hv htr => resolvedContentType_override _ _ v hv htr
  · exact fun h s hs hs2 => resolvedContentType_header _ _ s h hs hs2
  · exact fun h hs => resolvedContentType_none _ _ h hs

/-- Witness for the amended C6: no override and no upstream header — the
parser is invoked with no content type and one warning is emitted. -/
theorem C6_witness :
    (rdfPOST (fun _ _ => [])
      (.parsed (jfields [("apiUrl", .str "u"), ("dataType", .str "rdf")]))
      (.response ⟨200, "OK", [], .ok "t", .error "x"⟩)).rdfParseCalls
      = [⟨none, none⟩] ∧
    (rdfPOST (fun _ _ => [])
      (.parsed (jfields [("apiUrl", .str "u"), ("dataType", .str "rdf")]))
      (.response ⟨200, "OK", [], .ok "t", .error "x"⟩)).warnings = 1 := by
  have h := C6_content_type_resolution (jfields [("apiUrl", .str "u"), ("dataType", .str "rdf")])
    (fun _ _ => []) ⟨200, "OK", [], .ok "t", .error "x"⟩ "t"
    [("Content-Type", "application/json")] none
    (by decide) (by decide) (by decide) (by decide) (by decide) (by decide)
  have hn := h.2.2.2.2 (by decide) (Or.inl (by decide))
  refine ⟨?_, ?_⟩
  · rw [h.1, hn]
    decide
  · rw [h.2.1, hn]
    decide

theorem streamOutcome_err_mem (evs : List QuadEvent) (e : RdfError)
    (hmem : QuadEvent.err e ∈ evs) : ∃ e2, streamOutcome evs = .error e2 := by
  induction evs with
  | nil => cases hmem
  | cons x rest ih =>
    cases x with
    | err e3 => exact ⟨e3, rfl⟩
    | quad q =>
      rcases List.mem_cons.mp hmem with hx | hmem2
      · cases hx
      · obtain ⟨e2, h2⟩ := ih hmem2
        exact ⟨e2, by simp [streamOutcome, h2]⟩

theorem streamOutcome_ok_spec (evs : List QuadEvent) (qs : List Quad)
    (h : streamOutcome evs = .ok qs) :
    qs = quadsOf evs ∧ ∀ e ∈ evs, isErrEvent e = false := by
  induction evs generalizing qs with
  | nil =>
    simp only [streamOutcome] at h
    cases h
    exact ⟨rfl, by simp⟩
  | cons x rest ih =>
    cases x with
    | err e3 => simp [streamOutcome] at h
    | quad q =>
      simp only [streamOutcome] at h
      cases hr : streamOutcome rest with
      | error e2 => rw [hr] at h; cases h
      | ok qs2 =>
        rw [hr] at h
        cases h
        obtain ⟨h1, h2⟩ := ih qs2 hr
        refine ⟨by simp [quadsOf, h1], ?_⟩
        intro e he
        rcases List.mem_cons.mp he with he | he
        · cases he; rfl
        · exact h2 e he

theorem streamOutcome_of_noerr (evs : List QuadEvent)
    (h : ∀ e ∈ evs, isErrEvent e = false) :
    streamOutcome evs = .ok (quadsOf evs) := by
  induction evs with
  | nil => rfl
  | cons x rest ih =>
    cases x with
    | err e3 =>
      have := h (.err e3) (List.mem_cons_self _ _)
      simp [isErrEvent] at this
    | quad q =>
      have hrest := ih (fun e he => h e (List.mem_cons_of_mem _ he))
      simp [streamOutcome, hrest, quadsOf]

theorem rdfParsePhase_resp_error (rdfParse : String → RdfParseOpts → List QuadEvent)
    (rdfOptions : JsonValue) (r : UpstreamResponse) (rdfText : String) (e : RdfError)
    (htext : r.textResult = .ok rdfText)
    (hso : streamOutcome (rdfParse rdfText
      ⟨resolvedContentType rdfOptions r.headers, getField rdfOptions "baseIRI"⟩) = .error e) :
    (rdfParsePhase rdfParse rdfOptions r).resp
      = errorResponse ("Failed to parse RDF response from external API: " ++ e.msg) 422
          (some (.msg e.stack)) := by
  simp [rdfParsePhase, htext, hso]

theorem rdfParsePhase_resp_ok (rdfParse : String → RdfParseOpts → List QuadEvent)
    (rdfOptions : JsonValue) (r : UpstreamResponse) (rdfText : String) (qs : List Quad)
    (htext : r.textResult = .ok rdfText)
    (hso : streamOutcome (rdfParse rdfText
      ⟨resolvedContentType rdfOptions r.headers, getField rdfOptions "baseIRI"⟩) = .ok qs) :
    (rdfParsePhase rdfParse rdfOptions r).resp = ⟨200, .success (.rdf qs)⟩ := by
  simp [rdfParsePhase, htext, hso]

/-- Claim C7: for every rdf request reaching the parse stage, if an error
event is raised on the quad stream at any point — including after quad
records have been produced — the gateway returns a single 422 parse-failure
response with `success:false`; `success:true` is returned only with the
full ordered sequence of parsed quads (never a truncated one), and when no
error event occurs the full sequence is returned with status 200. -/
theorem C7_stream_error_no_partial (fields : JsonFields)
    (rdfParse : String → RdfParseOpts → List QuadEvent)
    (r : UpstreamResponse) (rdfText : String)
    (hdrs : List (String × String)) (body : Option String)
    (h1 : truthyOpt (lookupLast fields "apiUrl") = true)
    (hdt : lookupLast fields "dataType" = some (.str "rdf"))
    (ha : authHeadersStep true (lookupLast fields "authentication") (frontHeaders fields)
      = .ok hdrs)
    (hb : bodyStepStrict false (lookupLast fields "body") (reqMethod fields) hdrs = .ok body)
    (hok : upstreamOk r = true) (htext : r.textResult = .ok rdfText) :
    ((∃ e, QuadEvent.err e ∈ rdfEventsOf rdfParse fields r rdfText) →
      (rdfPOST rdfParse (.parsed fields) (.response r)).resp.status = 422 ∧
      ∃ e2 : RdfError, (rdfPOST rdfParse (.parsed fields) (.response r)).resp.body
        = .failure ("Failed to parse RDF response from external API: " ++ e2.msg)
            (some (.msg e2.stack))) ∧
    (∀ qs, (rdfPOST rdfParse (.parsed fields) (.response r)).resp.body
        = .success (.rdf qs) →
      qs = quadsOf (rdfEventsOf rdfParse fields r rdfText) ∧
      ∀ e ∈ rdfEventsOf rdfParse fields r rdfText, isErrEvent e = false) ∧
    ((∀ e ∈ rdfEventsOf rdfParse fields r rdfText, isErrEvent e = false) →
      (rdfPOST rdfParse (.parsed fields) (.response r)).resp
        = ⟨200, .success (.rdf (quadsOf (rdfEventsOf rdfParse fields r rdfText)))⟩) := by
  have hrun := rdfPOST_run rdfParse fields (.response r) hdrs body h1 hdt ha hb
  rw [hrun, called_upstream_okPass _ _ r hok]
  have hresp : ∀ p : PostFetch, (called ⟨reqUrl fields, reqMethod fields, hdrs, body⟩ p).resp
      = p.resp := fun p => rfl
  rw [hresp]
  refine ⟨?_, ?_, ?_⟩
  · rintro ⟨e, hmem⟩
    obtain ⟨e2, hso⟩ := streamOutcome_err_mem _ e hmem
    rw [rdfParsePhase_resp_error rdfParse _ r rdfText e2 htext hso]
    exact ⟨rfl, e2, rfl⟩
  · intro qs hqs
    cases hso : streamOutcome (rdfEventsOf rdfParse fields r rdfText) with
    | error e =>
      rw [rdfParsePhase_resp_error rdfParse _ r rdfText e htext hso] at hqs
      cases hqs
    | ok qs2 =>
      rw [rdfParsePhase_resp_ok rdfParse _ r rdfText qs2 htext hso] at hqs
      cases hqs
      exact streamOutcome_ok_spec _ _ hso
  · intro hno
    have hso := streamOutcome_of_noerr _ hno
    exact rdfParsePhase_resp_ok rdfParse _ r rdfText _ htext hso

/-- Witness for C7: one quad followed by an error event yields a single
422 parse failure, not a truncated success. -/
theorem C7_witness :
    QuadEvent.err ⟨"boom", "st"⟩
      ∈ rdfEventsOf (fun _ _ => [.quad ⟨"s", "p", "o", "g"⟩, .err ⟨"boom", "st"⟩])
        (jfields [("apiUrl", .str "u"), ("dataType", .str "rdf")])
        ⟨200, "OK", [("Content-Type", "text/turtle")], .ok "t", .error "x"⟩ "t" ∧
    (rdfPOST (fun _ _ => [.quad ⟨"s", "p", "o", "g"⟩, .err ⟨"boom", "st"⟩])
      (.parsed (jfields [("apiUrl", .str "u"), ("dataType", .str "rdf")]))
      (.response ⟨200, "OK", [("Content-Type", "text/turtle")], .ok "t", .error "x"⟩)).resp.status
      = 422 := by
  refine ⟨by decide, ?_⟩
  have h := C7_stream_error_no_partial (jfields [("apiUrl", .str "u"), ("dataType", .str "rdf")])
    (fun _ _ => [.quad ⟨"s", "p", "o", "g"⟩, .err ⟨"boom", "st"⟩])
    ⟨200, "OK", [("Content-Type", "text/turtle")], .ok "t", .error "x"⟩ "t"
    [("Content-Type", "application/json")] none
    (by decide) (by decide) (by decide) (by decide) (by decide) (by decide)
  exact (h.1 ⟨⟨"boom", "st"⟩, by decide⟩).1

theorem xmlParsePhase_invalid (validate : String → XmlValidation)
    (parseXml : JsonValue → String → Except String JsonValue)
    (opts : JsonValue) (r : UpstreamResponse) (xmlText : String) (e : XmlErr)
    (htext : r.textResult = .ok xmlText) (hval : validate xmlText = .invalid e) :
    (xmlParsePhase validate parseXml opts r).resp
      = errorResponse "Failed to validate XML response: Malformed XML." 422
          (some (.xmlErr e)) ∧
    (xmlParsePhase validate parseXml opts r).xmlParseCalls = [] := by
  constructor <;> simp [xmlParsePhase, htext, hval, pfResp]

theorem xmlParsePhase_valid (validate : String → XmlValidation)
    (parseXml : JsonValue → String → Except String JsonValue)
    (opts : JsonValue) (r : UpstreamResponse) (xmlText : String)
    (htext : r.textResult = .ok xmlText) (hval : validate xmlText = .valid) :
    (xmlParsePhase validate parseXml opts r).xmlParseCalls = [⟨opts, xmlText⟩] := by
  cases hp : parseXml opts xmlText <;> simp [xmlParsePhase, htext, hval, hp]

/-- Claim C8: for every xml request whose upstream body fails the
well-formedness validation, the gateway returns 422 with a structured
diagnostic carrying the validator's machine-readable defect code, and the
full parse is not attempted; the full parse, with the caller-supplied
`xmlParserOptions`, is attempted exactly when validation succeeds. -/
theorem C8_xml_validation_gate (fields : JsonFields)
    (validate : String → XmlValidation)
    (parseXml : JsonValue → String → Except String JsonValue)
    (r : UpstreamResponse) (xmlText : String)
    (hdrs : List (String × String)) (body : Option String)
    (h1 : truthyOpt (lookupLast fields "apiUrl") = true)
    (hdt : lookupLast fields "dataType" = some (.str "xml"))
    (ha : authHeadersStep false (lookupLast fields "authentication") (frontHeaders fields)
      = .ok hdrs)
    (hb : bodyStepStrict true (lookupLast fields "body") (reqMethod fields) hdrs = .ok body)
    (hok : upstreamOk r = true) (htext : r.textResult = .ok xmlText) :
    (∀ e, validate xmlText = .invalid e →
      (xmlPOST validate parseXml (.parsed fields) (.response r)).resp.status = 422 ∧
      respError (xmlPOST validate parseXml (.parsed fields) (.response r))
        = some "Failed to validate XML response: Malformed XML." ∧
      respDetails (xmlPOST validate parseXml (.parsed fields) (.response r))
        = some (.xmlErr e) ∧
      (xmlPOST validate parseXml (.parsed fields) (.response r)).xmlParseCalls = []) ∧
    (validate xmlText = .valid →
      (xmlPOST validate parseXml (.parsed fields) (.response r)).xmlParseCalls
        = [⟨(lookupLast fields "xmlParserOptions").getD (.obj .nil), xmlText⟩]) := by
  have hrun := xmlPOST_run validate parseXml fields (.response r) hdrs body h1 hdt ha hb
  rw [hrun, called_upstream_okPass _ _ r hok]
  constructor
  · intro e hval
    obtain ⟨hresp, hcalls⟩ := xmlParsePhase_invalid validate parseXml
      ((lookupLast fields "xmlParserOptions").getD (.obj .nil)) r xmlText e htext hval
    refine ⟨?_, ?_, ?_, ?_⟩
    · show (xmlParsePhase validate parseXml _ r).resp.status = 422
      rw [hresp]
      rfl
    · show respError ⟨(xmlParsePhase validate parseXml _ r).resp, _, _, _, _⟩ = _
      simp [respError, hresp, errorResponse]
    · show respDetails ⟨(xmlParsePhase validate parseXml _ r).resp, _, _, _, _⟩ = _
      simp [respDetails, hresp, errorResponse]
    · show (xmlParsePhase validate parseXml _ r).xmlParseCalls = []
      rw [hcalls]
  · intro hval
    show (xmlParsePhase validate parseXml _ r).xmlParseCalls = _
    rw [xmlParsePhase_valid validate parseXml _ r xmlText htext hval]

/-- Witness for C8: a validator reporting defect code `InvalidTag` (as
`fast-xml-parser` does for the repository's missing-closing-tag test
sample) yields a 422 carrying that code and no parse invocation, while a
passing validation leads to exactly one parse invocation with the
caller-supplied options. -/
theorem C8_witness :
    respDetails (xmlPOST (fun _ => .invalid ⟨"InvalidTag", "Expected closing tag", 1⟩)
        (fun _ _ => .ok .null)
        (.parsed (jfields [("apiUrl", .str "u"), ("dataType", .str "xml")]))
        (.response ⟨200, "OK", [], .ok "<root><item>Test</item><item>Data</root", .error "x"⟩))
      = some (.xmlErr ⟨"InvalidTag", "Expected closing tag", 1⟩) ∧
    (xmlPOST (fun _ => .invalid ⟨"InvalidTag", "Expected closing tag", 1⟩)
        (fun _ _ => .ok .null)
        (.parsed (jfields [("apiUrl", .str "u"), ("dataType", .str "xml")]))
        (.response ⟨200, "OK", [], .ok "<root><item>Test</item><item>Data</root", .error "x"⟩)).resp.status
      = 422 ∧
    (xmlPOST (fun _ => .invalid ⟨"InvalidTag", "Expected closing tag", 1⟩)
        (fun _ _ => .ok .null)
        (.parsed (jfields [("apiUrl", .str "u"), ("dataType", .str "xml")]))
        (.response ⟨200, "OK", [], .ok "<root><item>Test</item><item>Data</root", .error "x"⟩)).xmlParseCalls
      = [] ∧
    (xmlPOST (fun _ => .valid) (fun _ _ => .ok .null)
        (.parsed (jfields [("apiUrl", .str "u"), ("dataType", .str "xml"),
          ("xmlParserOptions", .obj (jfields [("ignoreAttributes", .bool false)]))]))
        (.response ⟨200, "OK", [], .ok "<root/>", .error "x"⟩)).xmlParseCalls
      = [⟨.obj (jfields [("ignoreAttributes", .bool false)]), "<root/>"⟩] := by
  have h1 := C8_xml_validation_gate (jfields [("apiUrl", .str "u"), ("dataType", .str "xml")])
    (fun _ => .invalid ⟨"InvalidTag", "Expected closing tag", 1⟩) (fun _ _ => .ok .null)
    ⟨200, "OK", [], .ok "<root><item>Test</item><item>Data</root", .error "x"⟩
    "<root><item>Test</item><item>Data</root" [("Content-Type", "application/json")] none
    (by decide) (by decide) (by decide) (by decide) (by decide) (by decide)
  have h2 := C8_xml_validation_gate (jfields [("apiUrl", .str "u"), ("dataType", .str "xml"),
      ("xmlParserOptions", .obj (jfields [("ignoreAttributes", .bool false)]))])
    (fun _ => .valid) (fun _ _ => .ok .null)
    ⟨200, "OK", [], .ok "<root/>", .error "x"⟩ "<root/>"
    [("Content-Type", "application/json")] none
    (by decide) (by decide) (by decide) (by decide) (by decide) (by decide)
  obtain ⟨ha, hc, hd, he⟩ := h1.1 ⟨"InvalidTag", "Expected closing tag", 1⟩ rfl
  refine ⟨hd, ha, he, ?_⟩
  have := h2.2 rfl
  rw [this]
  decide
